import Mathlib

/-!
Verification of the pyBiodatafuse data harmonization and graph construction
pipeline against its specification.  The Python sources under
src/pyBiodatafuse are shallowly embedded: pandas data frames become lists of
association-list rows, JSON records become association lists of scalar
values, the networkx MultiDiGraph becomes an explicit structure of node and
edge lists, and every fallible Python operation returns in the Except monad
with an explicit exception value.
-/

namespace PyBDF

/-- Scalar cell values of the data frames and JSON records: strings, numbers
(modelled as integers, since no claim depends on fractional arithmetic), the
float NaN null marker, and the Python None. -/
inductive Val where
  | vStr : String → Val
  | vInt : Int → Val
  | vNull : Val
  | vNone : Val
deriving DecidableEq

/-- Python exceptions raised by the modelled code. -/
inductive PyErr where
  | keyError : String → PyErr
  | typeError : String → PyErr
  | nameError : String → PyErr
  | indexError : String → PyErr
  | valueError : String → PyErr
  | attributeError : String → PyErr
deriving DecidableEq

/-- The pandas isna test: true exactly on the NaN marker and on None. -/
def pdIsna : Val → Bool
  | Val.vNull => true
  | Val.vNone => true
  | _ => false

/-- Lookup in an insertion-ordered association list (a Python dict). -/
def dlookup {κ α : Type} [DecidableEq κ] : List (κ × α) → κ → Option α
  | [], _ => none
  | (k, v) :: rest, key => if k = key then some v else dlookup rest key

/-- Python dict assignment d[k] = v: replaces in place keeping the original
position when the key exists, appends otherwise. -/
def dinsert {κ α : Type} [DecidableEq κ] : List (κ × α) → κ → α → List (κ × α)
  | [], key, v => [(key, v)]
  | (k, w) :: rest, key, v =>
      if k = key then (key, v) :: rest else (k, w) :: dinsert rest key v

/-- Python del d[k] (the key is known to be present at every call site that
matters, so the KeyError branch of del is not modelled separately). -/
def derase {κ α : Type} [DecidableEq κ] (l : List (κ × α)) (key : κ) : List (κ × α) :=
  l.filter (fun p => decide (p.1 ≠ key))

/-- A JSON record or canonical source record: string keys to scalar values. -/
abbrev Rec := List (String × Val)

/-- Record field access dg[key]: KeyError when the field is absent. -/
def rget (r : Rec) (key : String) : Except PyErr Val :=
  match dlookup r key with
  | some v => Except.ok v
  | none => Except.error (PyErr.keyError key)

/-- A cell of a data frame row: either a scalar or a list of records (the
collapsed per-source annotation list). -/
inductive Cell where
  | prim : Val → Cell
  | recs : List Rec → Cell
deriving DecidableEq

/-- A data frame row: insertion-ordered mapping from column names to cells. -/
abbrev Row := List (String × Cell)

/-- Column access row[col] on a data frame row. -/
def getCell (row : Row) (col : String) : Except PyErr Cell :=
  match dlookup row col with
  | some c => Except.ok c
  | none => Except.error (PyErr.keyError col)

/-- Use a cell as a scalar (a node label or a dict key); a list-valued cell
is unhashable in Python and raises TypeError there. -/
def asPrim : Cell → Except PyErr Val
  | Cell.prim v => Except.ok v
  | Cell.recs _ => Except.error (PyErr.typeError "unhashable list")

/-- Iterate a cell as a list of records; iterating a scalar raises TypeError. -/
def asRecs : Cell → Except PyErr (List Rec)
  | Cell.recs l => Except.ok l
  | Cell.prim _ => Except.error (PyErr.typeError "not iterable")

/-- A node or edge attribute value: either a scalar or a nested dict (the
attr_dict wrapper passed to add_node and add_edge). -/
inductive AVal where
  | prim : Val → AVal
  | adict : List (Val × Val) → AVal
deriving DecidableEq

/-- A node or edge attribute mapping; keys are arbitrary hashables, here any
scalar value, because generate_networkx_graph uses the target.source cell of
a row as a dict key. -/
abbrev Attrs := List (Val × AVal)

/-- A networkx MultiDiGraph restricted to the operations the generator uses:
an insertion-ordered node list with attribute mappings, and a list of keyed
parallel edges with attribute mappings. -/
structure Graph where
  nodes : List (Val × Attrs)
  edges : List (Val × Val × Nat × Attrs)
deriving DecidableEq

def emptyGraph : Graph := { nodes := [], edges := [] }

/-- Python dict literal: entries inserted left to right, a later duplicate
key overwrites in place. -/
def mkdict (l : List (Val × Val)) : List (Val × Val) :=
  l.foldl (fun acc p => dinsert acc p.1 p.2) []

/-- Shorthand for a string scalar. -/
def s (x : String) : Val := Val.vStr x

/-- networkx add_node(label, attr_dict=d): creates the node on first sight;
on an existing node it updates the attribute mapping, overwriting its
attr_dict entry with the new dict while keeping other attributes. -/
def Graph.addNode (g : Graph) (label : Val) (d : List (Val × Val)) : Graph :=
  if (dlookup g.nodes label).isSome then
    { g with nodes := g.nodes.map (fun p =>
        if p.1 = label then (p.1, dinsert p.2 (s "attr_dict") (AVal.adict d)) else p) }
  else
    { g with nodes := g.nodes ++ [(label, [(s "attr_dict", AVal.adict d)])] }

/-- networkx creates bare endpoint nodes (with an empty attribute mapping)
when add_edge references a node that does not exist yet. -/
def Graph.ensureNode (g : Graph) (label : Val) : Graph :=
  if (dlookup g.nodes label).isSome then g
  else { g with nodes := g.nodes ++ [(label, [])] }

/-- networkx MultiDiGraph add_edge(u, v, attr_dict=d): always appends a new
parallel edge whose key is the number of existing u to v edges. -/
def Graph.addEdge (g : Graph) (u v : Val) (d : List (Val × Val)) : Graph :=
  let g1 := (g.ensureNode u).ensureNode v
  let key := (g1.edges.filter (fun e => decide (e.1 = u ∧ e.2.1 = v))).length
  { g1 with edges := g1.edges ++ [(u, v, key, [(s "attr_dict", AVal.adict d)])] }

/-- Sequential for-loop over a list in the Except monad, threading state. -/
def foldE {α β : Type} (f : β → α → Except PyErr β) (b : β) : List α → Except PyErr β
  | [] => Except.ok b
  | a :: l => do
    let b2 ← f b a
    foldE f b2 l

/-- Sequential transformation of each list element in the Except monad. -/
def mapME {α β : Type} (f : α → Except PyErr β) : List α → Except PyErr (List β)
  | [] => Except.ok []
  | a :: l => do
    let b ← f a
    let bs ← mapME f l
    Except.ok (b :: bs)

/-- Loop body of add_disgenet_disease_subgraph for one record: when the
disease_name is not NaN, add or update the disease annotation node and add a
Subject to Annotation edge.  The score edge field is copied as is, while
year_initial, year_final, ei and el default to the empty string when NaN. -/
def disgenet_step (gene_node_label : Val) (g : Graph) (dg : Rec) : Except PyErr Graph := do
  let dn ← rget dg "disease_name"
  if pdIsna dn then Except.ok g else do
    let did ← rget dg "diseaseid"
    let dcl ← rget dg "disease_class"
    let dcln ← rget dg "disease_class_name"
    let dty ← rget dg "disease_type"
    let dst ← rget dg "disease_semantic_type"
    let g := g.addNode dn (mkdict [(s "source", s "DisGeNET"), (s "labels", dn),
      (s "id", did), (s "disease_id", did), (s "disease_class", dcl),
      (s "disease_class_name", dcln), (s "disease_type", dty),
      (s "disease_semantic_type", dst)])
    let sc ← rget dg "score"
    let yi ← rget dg "year_initial"
    let yf ← rget dg "year_final"
    let ei ← rget dg "ei"
    let el ← rget dg "el"
    Except.ok (g.addEdge gene_node_label dn (mkdict [(s "source", s "DisGeNET"),
      (s "label", s "associated_with"), (s "score", sc),
      (s "year_initial", if pdIsna yi then s "" else yi),
      (s "year_final", if pdIsna yf then s "" else yf),
      (s "ei", if pdIsna ei then s "" else ei),
      (s "el", if pdIsna el then s "" else el)]))

/-- add_disgenet_disease_subgraph from graph/generator.py. -/
def add_disgenet_disease_subgraph (g : Graph) (gene_node_label : Val)
    (annot_list : List Rec) : Except PyErr Graph :=
  foldE (disgenet_step gene_node_label) g annot_list

/-- Loop body of add_opentargets_location_subgraph; the Python condition
short-circuits, so subcellular_loc is only accessed when location is not
NaN. -/
def location_step (gene_node_label : Val) (g : Graph) (loc : Rec) : Except PyErr Graph := do
  let lv ← rget loc "location"
  if pdIsna lv then Except.ok g else do
    let sl ← rget loc "subcellular_loc"
    if pdIsna sl then Except.ok g else do
      let li ← rget loc "loc_identifier"
      let g := g.addNode lv (mkdict [(s "source", s "OpenTargets"),
        (s "labels", lv), (s "id", li), (s "subcellular_loc", sl)])
      Except.ok (g.addEdge gene_node_label lv (mkdict [(s "source", s "OpenTargets"),
        (s "label", s "localized_in")]))

/-- add_opentargets_location_subgraph from graph/generator.py. -/
def add_opentargets_location_subgraph (g : Graph) (gene_node_label : Val)
    (annot_list : List Rec) : Except PyErr Graph :=
  foldE (location_step gene_node_label) g annot_list

/-- Loop body of add_opentargets_go_subgraph: no validity check on the
records. -/
def go_step (gene_node_label : Val) (g : Graph) (go : Rec) : Except PyErr Graph := do
  let gn ← rget go "go_name"
  let gid ← rget go "go_id"
  let g := g.addNode gn (mkdict [(s "source", s "OpenTargets"),
    (s "labels", gn), (s "id", gid)])
  Except.ok (g.addEdge gene_node_label gn (mkdict [(s "source", s "OpenTargets"),
    (s "label", s "part_of_go")]))

/-- add_opentargets_go_subgraph from graph/generator.py. -/
def add_opentargets_go_subgraph (g : Graph) (gene_node_label : Val)
    (annot_list : List Rec) : Except PyErr Graph :=
  foldE (go_step gene_node_label) g annot_list

/-- Loop body of add_opentargets_pathway_subgraph. -/
def ot_pathway_step (gene_node_label : Val) (g : Graph) (pw : Rec) : Except PyErr Graph := do
  let pid ← rget pw "pathway_id"
  if pdIsna pid then Except.ok g else do
    let pn ← rget pw "pathway_name"
    let g := g.addNode pn (mkdict [(s "source", s "OpenTargets"),
      (s "labels", pn), (s "id", pid)])
    Except.ok (g.addEdge gene_node_label pn (mkdict [(s "source", s "OpenTargets"),
      (s "label", s "part_of_pathway")]))

/-- add_opentargets_pathway_subgraph from graph/generator.py. -/
def add_opentargets_pathway_subgraph (g : Graph) (gene_node_label : Val)
    (annot_list : List Rec) : Except PyErr Graph :=
  foldE (ot_pathway_step gene_node_label) g annot_list

/-- Loop body of add_opentargets_drug_subgraph: the edge label is the
relation field of the record, guarded by the isna check. -/
def drug_step (gene_node_label : Val) (g : Graph) (dr : Rec) : Except PyErr Graph := do
  let rel ← rget dr "relation"
  if pdIsna rel then Except.ok g else do
    let dname ← rget dr "drug_name"
    let cid ← rget dr "chembl_id"
    let g := g.addNode dname (mkdict [(s "source", s "OpenTargets"),
      (s "labels", dname), (s "id", cid)])
    Except.ok (g.addEdge gene_node_label dname (mkdict [(s "source", s "OpenTargets"),
      (s "label", rel)]))

/-- add_opentargets_drug_subgraph from graph/generator.py. -/
def add_opentargets_drug_subgraph (g : Graph) (gene_node_label : Val)
    (annot_list : List Rec) : Except PyErr Graph :=
  foldE (drug_step gene_node_label) g annot_list

/-- Loop body of add_opentargets_disease_subgraph. -/
def ot_disease_step (gene_node_label : Val) (g : Graph) (dg : Rec) : Except PyErr Graph := do
  let dn ← rget dg "disease_name"
  if pdIsna dn then Except.ok g else do
    let did ← rget dg "disease_id"
    let ta ← rget dg "therapeutic_areas"
    let g := g.addNode dn (mkdict [(s "source", s "OpenTargets"),
      (s "labels", dn), (s "id", did), (s "therapeutic_areas", ta)])
    Except.ok (g.addEdge gene_node_label dn (mkdict [(s "source", s "OpenTargets"),
      (s "label", s "associated_with")]))

/-- add_opentargets_disease_subgraph from graph/generator.py. -/
def add_opentargets_disease_subgraph (g : Graph) (gene_node_label : Val)
    (annot_list : List Rec) : Except PyErr Graph :=
  foldE (ot_disease_step gene_node_label) g annot_list

/-- Loop body of add_wikipathways_subgraph. -/
def wikipathways_step (gene_node_label : Val) (g : Graph) (pw : Rec) : Except PyErr Graph := do
  let pl ← rget pw "pathwayLabel"
  if pdIsna pl then Except.ok g else do
    let pid ← rget pw "pathwayId"
    let pgc ← rget pw "pathwayGeneCount"
    let g := g.addNode pl (mkdict [(s "source", s "WikiPathways"),
      (s "labels", pl), (s "id", pid), (s "gene_count", pgc)])
    Except.ok (g.addEdge gene_node_label pl (mkdict [(s "source", s "WikiPathways"),
      (s "label", s "part_of_pathway")]))

/-- add_wikipathways_subgraph from graph/generator.py. -/
def add_wikipathways_subgraph (g : Graph) (gene_node_label : Val)
    (annot_list : List Rec) : Except PyErr Graph :=
  foldE (wikipathways_step gene_node_label) g annot_list

/-- Loop body of add_ppi_subgraph: no validity check at all; every record
yields an edge to the stringdb_link_to value, which networkx creates as a
bare node when that label does not exist yet. -/
def ppi_step (gene_node_label : Val) (g : Graph) (ppi : Rec) : Except PyErr Graph := do
  let tgt ← rget ppi "stringdb_link_to"
  Except.ok (g.addEdge gene_node_label tgt (mkdict [(s "source", s "STRING"),
    (s "label", s "interacts_with")]))

/-- add_ppi_subgraph from graph/generator.py. -/
def add_ppi_subgraph (g : Graph) (gene_node_label : Val)
    (annot_list : List Rec) : Except PyErr Graph :=
  foldE (ppi_step gene_node_label) g annot_list

/-- Subject node attribute dict literal from generate_networkx_graph; the
fourth entry uses the target.source cell of the row as the key, so it can
collide with and overwrite one of the three literal keys. -/
def geneNodeAttrs (ident target tsrc : Val) : List (Val × Val) :=
  mkdict [(s "source", s "BridgeDB"), (s "labels", ident), (s "id", target), (tsrc, target)]

/-- Phase 1 body of generate_networkx_graph for a single merged row; the
json.loads(json.dumps(cell)) round trip of the source is the identity on the
modelled scalar values and is therefore not represented.  Returns the grown
graph together with the value left in the gene_node_label variable. -/
def processRow (g : Graph) (row : Row) : Except PyErr (Graph × Val) := do
  let identCell ← getCell row "identifier"
  let gene_node_label ← asPrim identCell
  let targetCell ← getCell row "target"
  let target ← asPrim targetCell
  let tsCell ← getCell row "target.source"
  let tsrc ← asPrim tsCell
  let g := g.addNode gene_node_label (geneNodeAttrs gene_node_label target tsrc)
  let c1 ← getCell row "DisGeNET"
  let l1 ← asRecs c1
  let g ← add_disgenet_disease_subgraph g gene_node_label l1
  let c2 ← getCell row "OpenTargets_Location"
  let l2 ← asRecs c2
  let g ← add_opentargets_location_subgraph g gene_node_label l2
  let c3 ← getCell row "GO_Process"
  let l3 ← asRecs c3
  let g ← add_opentargets_go_subgraph g gene_node_label l3
  let c4 ← getCell row "Reactome_Pathways"
  let l4 ← asRecs c4
  let g ← add_opentargets_pathway_subgraph g gene_node_label l4
  let c5 ← getCell row "ChEMBL_Drugs"
  let l5 ← asRecs c5
  let g ← add_opentargets_drug_subgraph g gene_node_label l5
  let c6 ← getCell row "OpenTargets_Diseases"
  let l6 ← asRecs c6
  let g ← add_opentargets_disease_subgraph g gene_node_label l6
  let c7 ← getCell row "WikiPathways"
  let l7 ← asRecs c7
  let g ← add_wikipathways_subgraph g gene_node_label l7
  Except.ok (g, gene_node_label)

/-- One iteration of the phase 1 loop, threading the graph and the last
gene_node_label value. -/
def phase1_step (p : Graph × Option Val) (row : Row) : Except PyErr (Graph × Option Val) := do
  let q ← processRow p.1 row
  Except.ok (q.1, some q.2)

/-- Phase 1 loop of generate_networkx_graph over all merged rows, also
recording the last value assigned to the gene_node_label loop variable. -/
def phase1 (df : List Row) : Except PyErr (Graph × Option Val) :=
  foldE phase1_step (emptyGraph, none) df

/-- Phase 2 loop of generate_networkx_graph.  NOTE: the source iterates the
rows to read their stringdb cell, but keeps passing the stale
gene_node_label variable left over from the phase 1 loop, which names the
last row of the data frame; on an empty frame the loop body never runs, so
the unbound variable is never read (the NameError branch is unreachable). -/
def phase2_step (last : Option Val) (g : Graph) (row : Row) : Except PyErr Graph := do
  let c ← getCell row "stringdb"
  let l ← asRecs c
  match last with
  | some lbl => add_ppi_subgraph g lbl l
  | none => Except.error (PyErr.nameError "gene_node_label")

/-- Phase 2 loop over all rows with the stale gene_node_label. -/
def phase2 (df : List Row) (last : Option Val) (g : Graph) : Except PyErr Graph :=
  foldE (phase2_step last) g df

/-- The attribute flattening inner loop of generate_networkx_graph: copy each
wrapper entry whose value is not None into the direct attribute namespace. -/
def flattenFold (start : Attrs) (d : List (Val × Val)) : Attrs :=
  d.foldl (fun acc kv =>
    if kv.2 = Val.vNone then acc else dinsert acc kv.1 (AVal.prim kv.2)) start

/-- Node pass of the flattening: the attr_dict access is unconditional, so a
node without the wrapper (for example one created bare by add_edge in phase
2) raises KeyError and the whole build aborts. -/
def flattenNodeEntry (p : Val × Attrs) : Except PyErr (Val × Attrs) :=
  match dlookup p.2 (s "attr_dict") with
  | none => Except.error (PyErr.keyError "attr_dict")
  | some (AVal.prim _) => Except.error (PyErr.attributeError "items")
  | some (AVal.adict d) => Except.ok (p.1, derase (flattenFold p.2 d) (s "attr_dict"))

/-- Edge pass of the flattening: guarded by an attr_dict membership test, so
an edge without the wrapper is left as is. -/
def flattenEdgeEntry (e : Val × Val × Nat × Attrs) : Except PyErr (Val × Val × Nat × Attrs) :=
  match dlookup e.2.2.2 (s "attr_dict") with
  | none => Except.ok e
  | some (AVal.prim _) => Except.error (PyErr.attributeError "items")
  | some (AVal.adict d) =>
      Except.ok (e.1, e.2.1, e.2.2.1, derase (flattenFold e.2.2.2 d) (s "attr_dict"))

/-- generate_networkx_graph from graph/generator.py: phase 1 over all rows,
phase 2 over all rows with the stale gene_node_label, then the node and edge
attribute flattening passes. -/
def generate_networkx_graph (fuse_df : List Row) : Except PyErr Graph := do
  let p ← phase1 fuse_df
  let g2 ← phase2 fuse_df p.2 p.1
  let newNodes ← mapME flattenNodeEntry g2.nodes
  let newEdges ← mapME flattenEdgeEntry g2.edges
  Except.ok { nodes := newNodes, edges := newEdges }

/-- Metadata dictionary values of the annotator return contracts. -/
inductive MVal where
  | mStr : String → MVal
  | mInt : Int → MVal
  | mDict : List (String × MVal) → MVal

/-- Modelled from the spec: get_identifier_of_interest (pyBiodatafuse.utils),
which is not under src.  Per the spec the Identifier Resolver output is
keyed by a caller-supplied target namespace string, so the rows of interest
for one data source are those whose target.source equals that namespace. -/
def get_identifier_of_interest (bridgedb_df : List Row) (namespace_id : String) : List Row :=
  bridgedb_df.filter (fun row =>
    match dlookup row "target.source" with
    | some (Cell.prim (Val.vStr t)) => decide (t = namespace_id)
    | _ => false)

/-- The column set of a pandas DataFrame built from a list of JSON records:
the union of the record keys in order of first appearance. -/
def columnsOf (rs : List Rec) : List String :=
  rs.foldl (fun acc r => r.foldl (fun acc2 p =>
    if p.1 ∈ acc2 then acc2 else acc2 ++ [p.1]) acc) []

/-- Helper of the first-occurrence deduplications below. -/
def dedupKeepFirstAux {α : Type} [DecidableEq α] (seen : List α) : List α → List α
  | [] => []
  | a :: l =>
      if a ∈ seen then dedupKeepFirstAux seen l
      else a :: dedupKeepFirstAux (a :: seen) l

/-- pandas drop_duplicates with no subset: keep the first occurrence of each
full row. -/
def dedupKeepFirst {α : Type} [DecidableEq α] (l : List α) : List α :=
  dedupKeepFirstAux [] l

/-- First-occurrence deduplication keyed by a projection, for
drop_duplicates with a subset. -/
def dedupByKeyAux {α β : Type} [DecidableEq β] (key : α → β) (seen : List β) : List α → List α
  | [] => []
  | a :: l =>
      if key a ∈ seen then dedupByKeyAux key seen l
      else a :: dedupByKeyAux key (key a :: seen) l

/-- Matching predicate of the collapsing merge: a canonical record matches a
base row when every join column holds the same scalar value in both. -/
def matchesRow (common_cols : List String) (row : Row) (r : Rec) : Bool :=
  common_cols.all (fun c =>
    match dlookup row c, dlookup r c with
    | some (Cell.prim v), some w => decide (v = w)
    | _, _ => false)

/-- The single-record null sentinel of the collapsing merge: one record with
every declared value column set to the null marker. -/
def nullSentinel (target_specific_cols : List String) : List Rec :=
  [target_specific_cols.map (fun c => (c, Val.vNull))]

/-- Modelled from the spec: the per-base-row body of collapse_data_sources
(pyBiodatafuse.utils), which is not under src.  Collects all matching
canonical records, in canonical table order, into the new list-valued
column; zero matches yield the single-record null sentinel. -/
def collapse_row (target_df : List Rec) (common_cols target_specific_cols : List String)
    (col_name : String) (row : Row) : Row :=
  let ms := target_df.filter (matchesRow common_cols row)
  let cellRecs :=
    if ms.isEmpty then nullSentinel target_specific_cols
    else ms.map (fun r => target_specific_cols.map (fun c => (c, (dlookup r c).getD Val.vNull)))
  dinsert row col_name (Cell.recs cellRecs)

/-- Join-column presence on the canonical side; an empty canonical table has
no schema in the row-list model, so the check is vacuous there. -/
def hasCols (cols : List String) (target_df : List Rec) : Bool :=
  target_df.isEmpty || cols.all (fun c => c ∈ columnsOf target_df)

/-- Modelled from the spec: collapse_data_sources (pyBiodatafuse.utils),
which is not under src.  Outer-preserving left join of the base identifier
table against the canonical source table on the join columns, grouped back
to exactly one output row per base row; matches keep canonical table order;
zero matches yield the single-record null sentinel; a join column missing
from either table is a schema mismatch failure; the base table is not
mutated and exactly one new column named col_name is added.  The
source_namespace argument takes no part in the merge the spec describes and
is kept for signature fidelity. -/
def collapse_data_sources (data_df : List Row) (source_namespace : String)
    (target_df : List Rec) (common_cols target_specific_cols : List String)
    (col_name : String) : Except PyErr (List Row) :=
  if common_cols.all (fun c => data_df.all (fun row => (dlookup row c).isSome))
      && hasCols common_cols target_df then
    Except.ok (data_df.map (collapse_row target_df common_cols target_specific_cols col_name))
  else
    Except.error (PyErr.keyError "schema mismatch on join columns")

/-- Modelled from the spec: check_columns_against_constants
(pyBiodatafuse.utils), which is not under src.  The Schema Validator is
purely advisory: it collects diagnostics for missing declared columns and
never mutates the table nor raises. -/
def check_columns_against_constants (data_df : List Rec) (output_cols : List String)
    (check_values_in : List String) : List String :=
  (output_cols.filter (fun c => decide (c ∉ columnsOf data_df))).map
    (fun c => "missing column " ++ c)

def DISGENET : String := "DISGENET"

def DISGENET_ENDPOINT : String := "https://api.disgenet.com/api/v1/gda/summary"

def DISGENET_INPUT_ID : String := "NCBI Gene"

/-- Keys of DISGENET_OUTPUT_DICT from constants.py. -/
def DISGENET_OUTPUT_KEYS : List String :=
  ["HPO", "NCI", "OMIM", "MONDO", "ORDO", "EFO", "DO", "MESH", "UMLS",
   "disease_name", "disease_type", "disease_umlscui", "score", "ei", "el"]

def PUBCHEM : String := "PubChem"

def PUBCHEM_ENDPOINT : String := "https://idsm.elixir-czech.cz/sparql/endpoint/idsm"

def PUBCHEM_INPUT_ID : String := "Uniprot-TrEMBL"

/-- Keys of PUBCHEM_OUTPUT_DICT from constants.py. -/
def PUBCHEM_OUTPUT_KEYS : List String :=
  ["pubchem_assay_id", "assay_type", "outcome", "compound_cid",
   "compound_name", "SMILES", "InChI"]

/-- If the pattern is a prefix of the character list, return the rest. -/
def charPrefix : List Char → List Char → Option (List Char)
  | [], l => some l
  | _ :: _, [] => none
  | p :: ps, c :: cs => if p = c then charPrefix ps cs else none

/-- Structural worker of the Python str.split: the fuel argument is the
input length, so the zero-fuel fallback is never reached at the call site
below; recursion is structural on the fuel, keeping the definition
kernel-reducible. -/
def splitCharsAux (sep : List Char) : Nat → List Char → List (List Char)
  | _, [] => [[]]
  | 0, l => [l]
  | Nat.succ n, c :: cs =>
    match charPrefix sep (c :: cs) with
    | some rest => [] :: splitCharsAux sep n rest
    | none =>
      match splitCharsAux sep n cs with
      | [] => [[c]]
      | h :: t => (c :: h) :: t

/-- Python x.split(sep) for a nonempty separator: non-overlapping matches
left to right, keeping empty parts. -/
def pySplit (x sep : String) : List String :=
  if sep = "" then [x]
  else (splitCharsAux sep.data x.data.length x.data).map String.mk

/-- Python x.split(sep)[-1] on a scalar column value; non-strings raise
AttributeError since the float NaN has no split method. -/
def splitLast (sep : String) : Val → Except PyErr Val
  | Val.vStr x => Except.ok (Val.vStr ((pySplit x sep).getLastD ""))
  | _ => Except.error (PyErr.attributeError "split")

/-- Python x.split(sep)[0] on a scalar column value. -/
def splitFirst (sep : String) : Val → Except PyErr Val
  | Val.vStr x => Except.ok (Val.vStr ((pySplit x sep).headD ""))
  | _ => Except.error (PyErr.attributeError "split")

/-- Python x.split(sep)[1]: IndexError when the separator does not occur. -/
def splitSecond (sep : String) : Val → Except PyErr Val
  | Val.vStr x =>
      match (pySplit x sep)[1]? with
      | some y => Except.ok (Val.vStr y)
      | none => Except.error (PyErr.indexError "list index out of range")
  | _ => Except.error (PyErr.attributeError "split")

/-- Series.apply or Series.map with a lambda over one column of a record
table: read the column value (NaN when a record lacks the key, matching the
DataFrame column fill), transform it, and write the destination column. -/
def applyCol (rs : List Rec) (src dst : String) (f : Val → Except PyErr Val) :
    Except PyErr (List Rec) :=
  mapME (fun r => do
    let w ← f ((dlookup r src).getD Val.vNull)
    Except.ok (dinsert r dst w)) rs

/-- A loose decimal-literal test used to model astype(float) on strings. -/
def isNumericStr (x : String) : Bool :=
  x.length > 0 && x.all (fun ch => ch.isDigit || ch = '.' || ch = '-')

/-- pandas astype(float): numbers pass through, null markers stay null,
numeric strings are kept verbatim (Val carries no float constructor and no
claim depends on the parsed magnitude), anything else raises ValueError. -/
def astype_float : Val → Except PyErr Val
  | Val.vInt n => Except.ok (Val.vInt n)
  | Val.vNull => Except.ok Val.vNull
  | Val.vNone => Except.ok Val.vNull
  | Val.vStr x =>
      if isNumericStr x then Except.ok (Val.vStr x)
      else Except.error (PyErr.valueError x)

/-- Structural decimal digit parser over a character list. -/
def parseNatAux : List Char → Nat → Option Nat
  | [], acc => some acc
  | c :: cs, acc =>
      if c.isDigit then parseNatAux cs (acc * 10 + (c.toNat - 48)) else none

/-- Python int(x) on a decimal string, structural and kernel-reducible. -/
def pyToInt (x : String) : Option Int :=
  match x.data with
  | [] => none
  | '-' :: cs =>
      match cs with
      | [] => none
      | _ => (parseNatAux cs 0).map (fun n => -(n : Int))
  | l => (parseNatAux l 0).map (fun n => (n : Int))

/-- pandas astype(int) on one column value. -/
def astype_int : Val → Except PyErr Int
  | Val.vInt n => Except.ok n
  | Val.vStr x =>
      match pyToInt x with
      | some n => Except.ok n
      | none => Except.error (PyErr.valueError x)
  | _ => Except.error (PyErr.valueError "cannot convert")

/-- Python str() of a scalar, modelling values.astype(str). -/
def pyStr : Val → Val
  | Val.vStr x => Val.vStr x
  | Val.vInt n => Val.vStr (toString n)
  | Val.vNull => Val.vStr "nan"
  | Val.vNone => Val.vStr "None"

/-- get_gene_disease from annotators/disgenet.py.  External effects are
parameters: api_available is the check_endpoint_disgenet result,
disgenet_version the get_version_disgenet payload, responses gives the
payload rows of the per-gene HTTP queries (the rate limit retry loop is
external collaborator behaviour), and the two strings stand for the
measured time and date written into the metadata block. -/
def get_gene_disease (api_available : Bool) (disgenet_version : MVal)
    (responses : Val → List Rec) (time_elapsed current_date : String)
    (bridgedb_df : List Row) : Except PyErr (List Row × List (String × MVal)) :=
  if api_available then do
    let data_df := get_identifier_of_interest bridgedb_df DISGENET_INPUT_ID
    let geneCells ← mapME (fun row => getCell row "target") data_df
    let genes ← mapME asPrim geneCells
    let disgenet_output := (genes.map responses).flatten
    if "geneNcbiID" ∈ columnsOf disgenet_output then do
      let i1 := dedupKeepFirst disgenet_output
      let i2 ← applyCol i1 "geneNcbiID" "target" (splitLast "/")
      let i3 ← applyCol i2 "description" "disease_id" (fun v => do
        let a ← splitSecond "umls:" v
        let b ← splitFirst "]" a
        match b with
        | Val.vStr y => Except.ok (Val.vStr ("umls:" ++ y.trim))
        | _ => Except.error (PyErr.attributeError "strip"))
      let i4 ← applyCol i3 "description" "disease_name" (fun v => do
        let a ← splitFirst "[umls:" v
        match a with
        | Val.vStr y => Except.ok (Val.vStr y.trim)
        | _ => Except.error (PyErr.attributeError "strip"))
      let i5 ← applyCol i4 "disease_score" "score" astype_float
      let i6 ← applyCol i5 "evidence_source" "evidence_source" (splitLast "/")
      let i7 := i6.map (fun r =>
        dinsert r "target" (pyStr ((dlookup r "target").getD Val.vNull)))
      let selected := ["geneDSI", "geneDPI", "genepLI", "geneNcbiType",
        "geneProteinClassIDs", "geneProteinClassNames", "diseaseVocabularies",
        "diseaseName", "diseaseType", "diseaseUMLSCUI", "score", "ei", "el"]
      if selected.all (fun c => c ∈ columnsOf i7) then do
        let i8 := i7.map (fun r => selected.map (fun c => (c, (dlookup r c).getD Val.vNull)))
        let _warn := check_columns_against_constants i8 DISGENET_OUTPUT_KEYS ["disease_id"]
        let merged ← collapse_data_sources bridgedb_df DISGENET_INPUT_ID i8 ["target"]
          DISGENET_OUTPUT_KEYS DISGENET
        let size := (dedupKeepFirst genes).length
        Except.ok (merged, [("datasource", MVal.mStr DISGENET),
          ("metadata", disgenet_version),
          ("query", MVal.mDict [("size", MVal.mInt size),
            ("input_type", MVal.mStr DISGENET_INPUT_ID),
            ("time", MVal.mStr time_elapsed), ("date", MVal.mStr current_date),
            ("url", MVal.mStr DISGENET_ENDPOINT)])])
      else
        Except.error (PyErr.keyError "selected columns")
    else
      Except.ok ([], [("datasource", MVal.mStr DISGENET), ("metadata", disgenet_version)])
  else
    Except.ok ([], [])

/-- Rename one record key in place, as pandas rename(columns=...). -/
def renameKey (r : Rec) (src dst : String) : Rec :=
  r.map (fun p => if p.1 = src then (dst, p.2) else p)

/-- The closed assay endpoint type lookup table inside
get_protein_molecule_screened (annotators/pubchem.py). -/
def assay_endpoint_types : List (String × String) :=
  [("http://www.bioassayontology.org/bao#BAO_0000034", "Kd"),
   ("http://www.bioassayontology.org/bao#BAO_0000186", "AC50"),
   ("http://www.bioassayontology.org/bao#BAO_0000187", "CC50"),
   ("http://www.bioassayontology.org/bao#BAO_0000188", "EC50"),
   ("http://www.bioassayontology.org/bao#BAO_0000190", "IC50"),
   ("http://www.bioassayontology.org/bao#BAO_0000192", "Ki"),
   ("http://www.bioassayontology.org/bao#BAO_0002146", "MIC")]

/-- Series.map(dict) semantics used on the assay_type column of
get_protein_molecule_screened: a value found in the dict is replaced; any
other value, including a code absent from the closed table, becomes NaN
silently and no exception is raised. -/
def map_assay_type (v : Val) : Val :=
  match v with
  | Val.vStr x =>
      match dlookup assay_endpoint_types x with
      | some y => Val.vStr y
      | none => Val.vNull
  | _ => Val.vNull

/-- pandas drop_duplicates(subset=cols): raises KeyError when a subset
column is not a column of the frame; raises TypeError when a subset column
holds unhashable list values; otherwise keeps the first row of each
duplicate group.  An empty frame, whose pandas schema could still trigger
the KeyError, has no schema in the row-list model and is returned as is. -/
def drop_duplicates_subset (rows : List Row) (subset : List String) :
    Except PyErr (List Row) :=
  match rows with
  | [] => Except.ok []
  | r0 :: _ =>
    let missing := subset.filter (fun c => (dlookup r0 c).isNone)
    if missing.isEmpty then
      if rows.any (fun row => subset.any (fun c =>
          match dlookup row c with
          | some (Cell.recs _) => true
          | _ => false)) then
        Except.error (PyErr.typeError "unhashable")
      else
        Except.ok (dedupByKeyAux (fun row => subset.map (fun c => dlookup row c)) [] rows)
    else
      Except.error (PyErr.keyError (missing.headD ""))

/-- get_protein_molecule_screened from annotators/pubchem.py.  External
effects are parameters: api_available is the check_endpoint_pubchem result
and bindings the concatenated SPARQL binding rows of all chunked queries,
already unwrapped to plain values as the applymap on the raw result does.
The chunking of the protein URI list only shapes those external queries.
The metadata size field, len(protein_list_str) in the source, reads the
string loop variable left over from the chunk loop and is abstracted by the
last_chunk_len parameter. -/
def get_protein_molecule_screened (api_available : Bool) (bindings : List Rec)
    (last_chunk_len : Int) (time_elapsed current_date : String)
    (bridgedb_df : List Row) : Except PyErr (List Row × List (String × MVal)) :=
  if api_available then do
    let data_df := get_identifier_of_interest bridgedb_df PUBCHEM_INPUT_ID
    if bindings.isEmpty then
      Except.ok ([], [("datasource", MVal.mStr PUBCHEM)])
    else do
      let i1 := bindings.map (fun r =>
        renameKey (renameKey r "upProt" "target") "assay" "pubchem_assay_id")
      let i2 ← mapME (fun r => do
        let n ← astype_int ((dlookup r "target_count").getD Val.vNull)
        Except.ok (dinsert r "target_count" (Val.vInt n))) i1
      let i3 := i2.filter (fun r =>
        match dlookup r "target_count" with
        | some (Val.vInt n) => decide (1 < n)
        | _ => false)
      let i4 := i3.map (fun r => derase r "target_count")
      let i5 ← applyCol i4 "target" "target"
        (splitLast "http://purl.uniprot.org/uniprot/")
      let i6 ← applyCol i5 "pubchem_assay_id" "pubchem_assay_id"
        (splitLast "http://rdf.ncbi.nlm.nih.gov/pubchem/bioassay/")
      let i7 ← applyCol i6 "outcome" "outcome"
        (splitSecond "http://rdf.ncbi.nlm.nih.gov/pubchem/vocabulary#")
      let i8 ← applyCol i7 "compound_cid" "compound_cid"
        (splitLast "http://rdf.ncbi.nlm.nih.gov/pubchem/compound/")
      let i9 := i8.map (fun r =>
        dinsert r "assay_type" (map_assay_type ((dlookup r "assay_type").getD Val.vNull)))
      let _warn := check_columns_against_constants i9 PUBCHEM_OUTPUT_KEYS ["outcome", "InChI"]
      let merged ← collapse_data_sources data_df PUBCHEM_INPUT_ID i9 ["target"]
        PUBCHEM_OUTPUT_KEYS (PUBCHEM ++ "_Assays")
      let merged2 ← drop_duplicates_subset merged ["identifier", "{PUBCHEM}_Assays"]
      Except.ok (merged2, [("datasource", MVal.mStr PUBCHEM),
        ("query", MVal.mDict [("size", MVal.mInt last_chunk_len),
          ("time", MVal.mStr time_elapsed), ("date", MVal.mStr current_date),
          ("url", MVal.mStr PUBCHEM_ENDPOINT)])])
  else
    Except.ok ([], [])

/-- Observation helper: attribute of a node in a generated graph. -/
def nodeAttr (r : Except PyErr Graph) (label key : Val) : Option AVal :=
  match r with
  | Except.ok g => (dlookup g.nodes label).bind (fun a => dlookup a key)
  | Except.error _ => none

/-- Observation helper: number of directed edges between two labels in a
generated graph. -/
def edgesBetween (r : Except PyErr Graph) (u v : Val) : Option Nat :=
  match r with
  | Except.ok g => some ((g.edges.filter (fun e => decide (e.1 = u ∧ e.2.1 = v))).length)
  | Except.error _ => none

/-- Observation helper: attribute of the k-th edge from u to v in a
generated graph. -/
def edgeAttr (r : Except PyErr Graph) (u v : Val) (k : Nat) (key : Val) : Option AVal :=
  match r with
  | Except.ok g =>
      ((g.edges.filter (fun e => decide (e.1 = u ∧ e.2.1 = v)))[k]?).bind
        (fun e => dlookup e.2.2.2 key)
  | Except.error _ => none

/-- Observation helper: whether the build returned a graph at all. -/
def retOk (r : Except PyErr Graph) : Bool :=
  match r with
  | Except.ok _ => true
  | Except.error _ => false


/-- A merged row carrying the eleven columns the generator reads; the
annotation columns other than DisGeNET and stringdb hold empty lists. -/
def mkRow (ident target tsrc : String) (dis ppi : List Rec) : Row :=
  [("identifier", Cell.prim (s ident)), ("target", Cell.prim (s target)),
   ("target.source", Cell.prim (s tsrc)),
   ("DisGeNET", Cell.recs dis), ("OpenTargets_Location", Cell.recs []),
   ("GO_Process", Cell.recs []), ("Reactome_Pathways", Cell.recs []),
   ("ChEMBL_Drugs", Cell.recs []), ("OpenTargets_Diseases", Cell.recs []),
   ("WikiPathways", Cell.recs []), ("stringdb", Cell.recs ppi)]

/-- Concrete two-row frame for C1: row A carries one interaction record
pointing at B, row B carries none. -/
def dfC1 : List Row :=
  [mkRow "A" "tA" "Ensembl" [] [[("stringdb_link_to", s "B")]],
   mkRow "B" "tB" "Ensembl" [] []]

/-- Concrete frame for C4: two rows with the same identifier X and different
targets. -/
def dfC4 : List Row :=
  [mkRow "X" "T1" "Ensembl" [] [], mkRow "X" "T2" "Ensembl" [] []]

/-- Parametric two-row frame of the amended C4. -/
def dfOverwrite (t1 t2 : String) : List Row :=
  [mkRow "X" t1 "Ensembl" [] [], mkRow "X" t2 "Ensembl" [] []]

/-- DisGeNET record whose diseaseid is the Python None. -/
def recC5 : Rec :=
  [("disease_name", s "Cancer"), ("diseaseid", Val.vNone), ("disease_class", s "C04"),
   ("disease_class_name", s "Neoplasms"), ("disease_type", s "disease"),
   ("disease_semantic_type", s "Neoplastic Process"), ("score", Val.vInt 1),
   ("year_initial", Val.vNull), ("year_final", Val.vNull), ("ei", Val.vNull),
   ("el", Val.vNull)]

def dfC5 : List Row := [mkRow "G" "T" "Ensembl" [recC5] []]

/-- DisGeNET record with a NaN score, for C6. -/
def recC6 : Rec :=
  [("disease_name", s "Cancer"), ("diseaseid", s "umls:C1"), ("disease_class", s "C04"),
   ("disease_class_name", s "Neoplasms"), ("disease_type", s "disease"),
   ("disease_semantic_type", s "Neoplastic Process"), ("score", Val.vNull),
   ("year_initial", Val.vNull), ("year_final", Val.vNull), ("ei", Val.vNull),
   ("el", Val.vNull)]

def dfC6 : List Row := [mkRow "G" "T" "Ensembl" [recC6] []]

/-- C6 counterexample: the NaN score of a DisGeNET record is propagated
unchanged into the edge attributes while the NaN year_initial of the same
record is replaced by the empty string, so not every null edge field is
defaulted to the empty-string marker. -/
theorem c6_counterexample :
    edgeAttr (generate_networkx_graph dfC6) (s "G") (s "Cancer") 0 (s "score")
      = some (AVal.prim Val.vNull) ∧
    edgeAttr (generate_networkx_graph dfC6) (s "G") (s "Cancer") 0 (s "year_initial")
      = some (AVal.prim (s "")) ∧
    AVal.prim Val.vNull ≠ AVal.prim (s "") :=
  ⟨rfl, rfl, by decide⟩

/-- Parametric DisGeNET record of the amended C6. -/
def recC6p (yi : Val) : Rec :=
  [("disease_name", s "Cancer"), ("diseaseid", s "umls:C1"), ("disease_class", s "C04"),
   ("disease_class_name", s "Neoplasms"), ("disease_type", s "disease"),
   ("disease_semantic_type", s "Neoplastic Process"), ("score", Val.vNull),
   ("year_initial", yi), ("year_final", Val.vNull), ("ei", Val.vNull),
   ("el", Val.vNull)]

def dfC6p (yi : Val) : List Row := [mkRow "G" "T" "Ensembl" [recC6p yi] []]

/-- BridgeDb table for the C9 evaluation. -/
def bridgeC9 : List Row :=
  [[("identifier", Cell.prim (s "P1")), ("identifier.source", Cell.prim (s "HGNC")),
    ("target", Cell.prim (s "Q1")), ("target.source", Cell.prim (s "Uniprot-TrEMBL"))]]

/-- One SPARQL binding row for the C9 evaluation. -/
def bindingC9 : Rec :=
  [("upProt", s "http://purl.uniprot.org/uniprot/Q1"),
   ("assay", s "http://rdf.ncbi.nlm.nih.gov/pubchem/bioassay/AID1"),
   ("target_count", s "2"),
   ("outcome", s "http://rdf.ncbi.nlm.nih.gov/pubchem/vocabulary#active"),
   ("compound_cid", s "http://rdf.ncbi.nlm.nih.gov/pubchem/compound/CID99"),
   ("assay_type", s "http://www.bioassayontology.org/bao#BAO_0000034"),
   ("compound_name", s "aspirin"), ("SMILES", s "CC"), ("InChI", s "InChI=1S")]

/-- Single-row frame of the C5 amended witness: its one interaction record
points back at the only Subject node, so the build succeeds with one edge. -/
def dfW5 : List Row := [mkRow "GA" "TA" "Ensembl" [] [[("stringdb_link_to", s "GA")]]]

/-- Concrete graph of the C5 amended witness. -/
def gW5 : Graph := ((generate_networkx_graph dfW5).toOption).getD emptyGraph

/-- The single edge of the C5 amended witness graph. -/
def eW5 : Val × Val × Nat × Attrs :=
  gW5.edges.headD (Val.vNull, Val.vNull, 0, [])

/-- Concrete graph of the C2 witness. -/
def gW2 : Graph := ((generate_networkx_graph dfC4).toOption).getD emptyGraph

/-- Observation helper: the graph state after phase 2 and before the
flattening passes, obtained by composing the embedded phases of
generate_networkx_graph. -/
def preFlattenGraph (df : List Row) : Except PyErr Graph := do
  let p ← phase1 df
  phase2 df p.2 p.1

/-- Observation helper: the value a node stores under a given key INSIDE its
attr_dict wrapper. -/
def wrapNodeAttr (r : Except PyErr Graph) (label key : Val) : Option Val :=
  match r with
  | Except.ok g =>
      match (dlookup g.nodes label).bind (fun a => dlookup a (s "attr_dict")) with
      | some (AVal.adict d) => dlookup d key
      | _ => none
  | Except.error _ => none

/-- DisGeNET record for the C2 counterexample: its diseaseid is the Python
None, so the wrapper stores id = None. -/
def recC2 : Rec :=
  [("disease_name", s "Flu"), ("diseaseid", Val.vNone), ("disease_class", s "C08"),
   ("disease_class_name", s "Respiratory"), ("disease_type", s "disease"),
   ("disease_semantic_type", s "Disease or Syndrome"), ("score", Val.vInt 1),
   ("year_initial", Val.vNull), ("year_final", Val.vNull), ("ei", Val.vNull),
   ("el", Val.vNull)]

def dfC2 : List Row := [mkRow "G2" "T2" "Ensembl" [recC2] []]

/-- Pre-flattening graph of the C2 amended witness frame. -/
def gW2pre : Graph := ((preFlattenGraph dfC4).toOption).getD emptyGraph

/-- First node of the returned witness graph. -/
def pW2 : Val × Attrs := gW2.nodes.headD (Val.vNull, [])

/-- First node of the pre-flattening witness graph. -/
def pW2pre : Val × Attrs := gW2pre.nodes.headD (Val.vNull, [])

/-- Wrapper dict of the first pre-flattening witness node. -/
def dW2 : List (Val × Val) :=
  match dlookup pW2pre.2 (s "attr_dict") with
  | some (AVal.adict d) => d
  | _ => []

/-- An edge attribute mapping before flattening: exactly the attr_dict
wrapper, whose dict carries non-None source and label values. -/
def GoodWrap (attrs : Attrs) : Prop :=
  ∃ d, attrs = [(s "attr_dict", AVal.adict d)] ∧
    (∃ x, dlookup d (s "source") = some x ∧ x ≠ Val.vNone) ∧
    (∃ w, dlookup d (s "label") = some w ∧ w ≠ Val.vNone)

/-- All edges of a graph wrapped with good dicts. -/
def EdgesOk (g : Graph) : Prop := ∀ e ∈ g.edges, GoodWrap e.2.2.2

/-- Base row of the C3 witness. -/
def rowY : Row := [("identifier", Cell.prim (s "Y")), ("target", Cell.prim (s "tY"))]

/-- The three scalar columns phase 1 reads before the source columns. -/
def PRIM_COLS : List String := ["identifier", "target", "target.source"]

/-- The source columns of phase 1 paired with the record fields the
corresponding subgraph function reads. -/
def SRC_SPEC : List (String × List String) :=
  [("DisGeNET", ["disease_name", "diseaseid", "disease_class", "disease_class_name",
     "disease_type", "disease_semantic_type", "score", "year_initial", "year_final",
     "ei", "el"]),
   ("OpenTargets_Location", ["location", "subcellular_loc", "loc_identifier"]),
   ("GO_Process", ["go_name", "go_id"]),
   ("Reactome_Pathways", ["pathway_id", "pathway_name"]),
   ("ChEMBL_Drugs", ["relation", "drug_name", "chembl_id"]),
   ("OpenTargets_Diseases", ["disease_name", "disease_id", "therapeutic_areas"]),
   ("WikiPathways", ["pathwayLabel", "pathwayId", "pathwayGeneCount"])]

/-- The ten columns phase 1 reads, in access order. -/
def PHASE1_COLS : List String :=
  ["identifier", "target", "target.source", "DisGeNET", "OpenTargets_Location",
   "GO_Process", "Reactome_Pathways", "ChEMBL_Drugs", "OpenTargets_Diseases",
   "WikiPathways"]

/-- The eleven columns generate_networkx_graph requires. -/
def REQUIRED_COLS : List String := PHASE1_COLS ++ ["stringdb"]

/-- A present scalar column holds a scalar cell. -/
def cellPrimOk : Option Cell → Bool
  | none => true
  | some (Cell.prim _) => true
  | some (Cell.recs _) => false

/-- A present source column holds a record list whose records carry the
given fields. -/
def cellRecsOk (fields : List String) : Option Cell → Bool
  | none => true
  | some (Cell.prim _) => false
  | some (Cell.recs rs) => rs.all (fun r => fields.all (fun f => (dlookup r f).isSome))

/-- Well-shapedness of a row: every present scalar column is a scalar and
every present source column is a record list whose records carry the fields
the matching subgraph function reads; any column may be absent. -/
def rowOk (row : Row) : Bool :=
  (PRIM_COLS.all (fun c => cellPrimOk (dlookup row c))) &&
  (SRC_SPEC.all (fun p => cellRecsOk p.2 (dlookup row p.1))) &&
  cellRecsOk ["stringdb_link_to"] (dlookup row "stringdb")

/-- Witness row for C10: well shaped, all columns present except stringdb. -/
def rowW10 : Row :=
  [("identifier", Cell.prim (s "A")), ("target", Cell.prim (s "T")),
   ("target.source", Cell.prim (s "Ensembl")),
   ("DisGeNET", Cell.recs []), ("OpenTargets_Location", Cell.recs []),
   ("GO_Process", Cell.recs []), ("Reactome_Pathways", Cell.recs []),
   ("ChEMBL_Drugs", Cell.recs []), ("OpenTargets_Diseases", Cell.recs []),
   ("WikiPathways", Cell.recs [])]

/-- C1: evaluating generate_networkx_graph at the failing input dfC1 shows
the build succeeds, yet the interaction record of row A produced no edge out
of the Subject node A; the edge was attached to the stale gene_node_label of
the last row, as a B to B self loop.  This contradicts the claim that each
phase 2 edge originates at its own row Subject node. -/
theorem c1_stale_origin_eval :
    retOk (generate_networkx_graph dfC1) = true ∧
    edgesBetween (generate_networkx_graph dfC1) (s "A") (s "B") = some 0 ∧
    edgesBetween (generate_networkx_graph dfC1) (s "B") (s "B") = some 1 :=
  ⟨rfl, rfl, rfl⟩

/-- C4 counterexample: after the build, the Subject node X carries the id of
the second row, not of the first, so a later merged row with the same
identifier does overwrite the Subject node attributes. -/
theorem c4_counterexample :
    nodeAttr (generate_networkx_graph dfC4) (s "X") (s "id") = some (AVal.prim (s "T2")) ∧
    nodeAttr (generate_networkx_graph dfC4) (s "X") (s "id") ≠ some (AVal.prim (s "T1")) :=
  ⟨rfl, by decide⟩

/-- C4 amended: for every pair of targets, processing a later row with the
same identifier overwrites the Subject node attributes with the later row
values (last-write-wins through add_node on an existing node). -/
theorem c4_amended (t1 t2 : String) :
    nodeAttr (generate_networkx_graph (dfOverwrite t1 t2)) (s "X") (s "id")
      = some (AVal.prim (s t2)) := rfl

/-- C5 counterexample: the build returns a graph in which the annotation node
Cancer carries source and labels but no id attribute, because the None value
of its diseaseid field is skipped by the flattening pass; so not every node
of a returned graph carries the id attribute. -/
theorem c5_counterexample :
    retOk (generate_networkx_graph dfC5) = true ∧
    nodeAttr (generate_networkx_graph dfC5) (s "Cancer") (s "source")
      = some (AVal.prim (s "DisGeNET")) ∧
    nodeAttr (generate_networkx_graph dfC5) (s "Cancer") (s "id") = none :=
  ⟨rfl, rfl, rfl⟩

/-- C6 amended: the year_initial, year_final, ei and el edge fields of a
DisGeNET record default to the empty string when NaN, but a NaN score is
propagated as is into the edge attributes of the returned graph. -/
theorem c6_amended (yi : Val) (h : yi ≠ Val.vNone) :
    edgeAttr (generate_networkx_graph (dfC6p yi)) (s "G") (s "Cancer") 0 (s "score")
      = some (AVal.prim Val.vNull) ∧
    edgeAttr (generate_networkx_graph (dfC6p yi)) (s "G") (s "Cancer") 0 (s "year_initial")
      = some (AVal.prim (if pdIsna yi then s "" else yi)) := by
  cases yi with
  | vNone => exact absurd rfl h
  | vNull => exact ⟨rfl, rfl⟩
  | vStr a => exact ⟨rfl, rfl⟩
  | vInt n => exact ⟨rfl, rfl⟩

/-- Witness for the amended C6 at the concrete NaN input. -/
theorem c6_amended_witness :
    edgeAttr (generate_networkx_graph (dfC6p Val.vNull)) (s "G") (s "Cancer") 0 (s "score")
      = some (AVal.prim Val.vNull) ∧
    edgeAttr (generate_networkx_graph (dfC6p Val.vNull)) (s "G") (s "Cancer") 0 (s "year_initial")
      = some (AVal.prim (if pdIsna Val.vNull then s "" else Val.vNull)) :=
  c6_amended Val.vNull (by decide)

/-- C7 counterexample: with the endpoint unavailable both annotators return
the empty table together with an EMPTY metadata record, whose key list is
not the claimed pair datasource, metadata. -/
theorem c7_counterexample :
    get_gene_disease false (MVal.mStr "v1") (fun _ => []) "0:00" "2026-10-12" []
      = Except.ok ([], []) ∧
    get_protein_molecule_screened false [] 0 "0:00" "2026-10-12" []
      = Except.ok ([], []) ∧
    (([] : List (String × MVal)).map Prod.fst ≠ ["datasource", "metadata"]) :=
  ⟨rfl, rfl, by decide⟩

/-- C7 amended: when the endpoint is unavailable, get_gene_disease and
get_protein_molecule_screened return, without raising, the empty table and
an empty metadata dict, for every remaining input. -/
theorem c7_amended (dv : MVal) (resp : Val → List Rec) (t1 d1 : String)
    (bdf1 : List Row) (bindings : List Rec) (n : Int) (t2 d2 : String)
    (bdf2 : List Row) :
    get_gene_disease false dv resp t1 d1 bdf1 = Except.ok ([], []) ∧
    get_protein_molecule_screened false bindings n t2 d2 bdf2 = Except.ok ([], []) :=
  ⟨rfl, rfl⟩

/-- C8 counterexample: a code absent from the closed assay endpoint type
table is mapped to NaN by the Series.map step, with no exception and no
report; the result is a silent null, not the empty string nor an error. -/
theorem c8_counterexample :
    dlookup assay_endpoint_types "http://www.bioassayontology.org/bao#BAO_0000000" = none ∧
    map_assay_type (Val.vStr "http://www.bioassayontology.org/bao#BAO_0000000") = Val.vNull ∧
    Val.vNull ≠ Val.vStr "" :=
  ⟨rfl, rfl, by decide⟩

/-- C8 amended: every code absent from the closed assay endpoint type table
is silently mapped to the NaN null marker for that field. -/
theorem c8_amended (x : String)
    (h : dlookup assay_endpoint_types x = none) :
    map_assay_type (Val.vStr x) = Val.vNull := by
  have hdef : map_assay_type (Val.vStr x)
      = (match dlookup assay_endpoint_types x with
         | some y => Val.vStr y
         | none => Val.vNull) := rfl
  rw [hdef, h]

/-- Witness for the amended C8 at a concrete absent code. -/
theorem c8_amended_witness :
    map_assay_type (Val.vStr "http://example.org/unknown") = Val.vNull :=
  c8_amended "http://example.org/unknown" rfl

/-- C9: evaluating get_protein_molecule_screened at a failing input: the
available endpoint and one valid binding row produce a non-empty merged
table, and the de-duplication step then raises KeyError, because its subset
names the literal column braces PUBCHEM braces _Assays (the source line is
missing its f-string prefix) while the real column is PubChem_Assays. -/
theorem c9_dedup_keyerror_eval :
    get_protein_molecule_screened true [bindingC9] 1 "0:00" "2026-10-12" bridgeC9
      = Except.error (PyErr.keyError "{PUBCHEM}_Assays") := rfl

/-- Computation rule of bind on a success value. -/
theorem ok_bind {α β : Type} (a : α) (f : α → Except PyErr β) :
    (Except.ok a >>= f) = f a := rfl

/-- Computation rule of bind on an exception. -/
theorem error_bind {α β : Type} (e : PyErr) (f : α → Except PyErr β) :
    ((Except.error e : Except PyErr α) >>= f) = Except.error e := rfl

/-- A successful bind factors through a successful first component. -/
theorem exbind_ok {α β : Type} {x : Except PyErr α} {f : α → Except PyErr β} {b : β}
    (h : (x >>= f) = Except.ok b) : ∃ a, x = Except.ok a ∧ f a = Except.ok b := by
  cases x with
  | ok a => exact ⟨a, rfl, h⟩
  | error e =>
    rw [error_bind] at h
    exact absurd h (by simp)

/-- Every element of a successful mapME output comes from some input element
on which the function succeeded. -/
theorem mapME_mem {α β : Type} {f : α → Except PyErr β} :
    ∀ {l : List α} {ys : List β}, mapME f l = Except.ok ys →
      ∀ y ∈ ys, ∃ x, x ∈ l ∧ f x = Except.ok y := by
  intro l
  induction l with
  | nil =>
    intro ys h y hy
    unfold mapME at h
    injection h with h
    subst h
    simp at hy
  | cons a l ih =>
    intro ys h y hy
    unfold mapME at h
    obtain ⟨b, hb, h2⟩ := exbind_ok h
    obtain ⟨bs, hbs, h3⟩ := exbind_ok h2
    injection h3 with h3
    subst h3
    rcases List.mem_cons.mp hy with hy | hy
    · exact ⟨a, List.mem_cons_self a l, by rw [hy]; exact hb⟩
    · obtain ⟨x, hx, hfx⟩ := ih hbs y hy
      exact ⟨x, List.mem_cons_of_mem a hx, hfx⟩

/-- An invariant preserved by every successful step of a fold is preserved by
the whole successful fold. -/
theorem foldE_inv {α β : Type} {P : β → Prop} {f : β → α → Except PyErr β}
    (hf : ∀ b a b2, P b → f b a = Except.ok b2 → P b2) :
    ∀ {l : List α} {b b2 : β}, P b → foldE f b l = Except.ok b2 → P b2 := by
  intro l
  induction l with
  | nil =>
    intro b b2 hP h
    unfold foldE at h
    injection h with h
    subst h
    exact hP
  | cons a l ih =>
    intro b b2 hP h
    unfold foldE at h
    obtain ⟨bm, hbm, h2⟩ := exbind_ok h
    exact ih (hf b a bm hP hbm) h2

/-- A fold whose every step succeeds on the list elements succeeds. -/
theorem foldE_ok {α β : Type} {P : α → Prop} {f : β → α → Except PyErr β}
    (hf : ∀ b a, P a → ∃ b2, f b a = Except.ok b2) :
    ∀ (l : List α) (b : β), (∀ a ∈ l, P a) → ∃ b2, foldE f b l = Except.ok b2 := by
  intro l
  induction l with
  | nil => intro b _; exact ⟨b, rfl⟩
  | cons a l ih =>
    intro b hl
    obtain ⟨bm, hbm⟩ := hf b a (hl a (List.mem_cons_self a l))
    obtain ⟨b2, hb2⟩ := ih bm (fun x hx => hl x (List.mem_cons_of_mem a hx))
    refine ⟨b2, ?_⟩
    unfold foldE
    rw [hbm, ok_bind]
    exact hb2

/-- Computation rule of dlookup on nil. -/
theorem dlookup_nil {κ α : Type} [DecidableEq κ] (k : κ) :
    dlookup ([] : List (κ × α)) k = none := rfl

/-- Computation rule of dlookup on cons. -/
theorem dlookup_cons {κ α : Type} [DecidableEq κ] (k1 : κ) (v1 : α)
    (l : List (κ × α)) (k2 : κ) :
    dlookup ((k1, v1) :: l) k2 = if k1 = k2 then some v1 else dlookup l k2 := rfl

/-- Computation rule of dinsert on nil. -/
theorem dinsert_nil {κ α : Type} [DecidableEq κ] (k : κ) (v : α) :
    dinsert ([] : List (κ × α)) k v = [(k, v)] := rfl

/-- Computation rule of dinsert on cons. -/
theorem dinsert_cons {κ α : Type} [DecidableEq κ] (k1 : κ) (v1 : α)
    (l : List (κ × α)) (k : κ) (v : α) :
    dinsert ((k1, v1) :: l) k v
      = if k1 = k then (k, v) :: l else (k1, v1) :: dinsert l k v := rfl

/-- Computation rule of derase on cons. -/
theorem derase_cons {κ α : Type} [DecidableEq κ] (k1 : κ) (v1 : α)
    (l : List (κ × α)) (k : κ) :
    derase ((k1, v1) :: l) k
      = if k1 = k then derase l k else (k1, v1) :: derase l k := by
  by_cases hk : k1 = k
  · rw [if_pos hk]
    unfold derase
    rw [List.filter_cons]
    simp [hk]
  · rw [if_neg hk]
    unfold derase
    rw [List.filter_cons]
    simp [hk]

/-- Lookup of a freshly inserted key. -/
theorem dlookup_dinsert_self {κ α : Type} [DecidableEq κ]
    (l : List (κ × α)) (k : κ) (v : α) :
    dlookup (dinsert l k v) k = some v := by
  induction l with
  | nil => rw [dinsert_nil, dlookup_cons, if_pos rfl]
  | cons p l ih =>
    obtain ⟨k1, v1⟩ := p
    rw [dinsert_cons]
    by_cases hk : k1 = k
    · rw [if_pos hk, dlookup_cons, if_pos rfl]
    · rw [if_neg hk, dlookup_cons, if_neg hk, ih]

/-- Insertion of a different key does not change a lookup. -/
theorem dlookup_dinsert_ne {κ α : Type} [DecidableEq κ]
    (l : List (κ × α)) (k k2 : κ) (v : α) (h : k2 ≠ k) :
    dlookup (dinsert l k v) k2 = dlookup l k2 := by
  have hkk : ¬ k = k2 := fun hh => h (Eq.symm hh)
  induction l with
  | nil => rw [dinsert_nil, dlookup_cons, if_neg hkk, dlookup_nil]
  | cons p l ih =>
    obtain ⟨k1, v1⟩ := p
    rw [dinsert_cons]
    by_cases hk : k1 = k
    · rw [if_pos hk, dlookup_cons, if_neg hkk, dlookup_cons]
      have h2 : ¬ k1 = k2 := by
        rw [hk]
        exact hkk
      rw [if_neg h2]
    · rw [if_neg hk, dlookup_cons, dlookup_cons]
      by_cases hk2 : k1 = k2
      · rw [if_pos hk2, if_pos hk2]
      · rw [if_neg hk2, if_neg hk2, ih]

/-- Lookup of an erased key. -/
theorem dlookup_derase_self {κ α : Type} [DecidableEq κ] (l : List (κ × α)) (k : κ) :
    dlookup (derase l k) k = none := by
  induction l with
  | nil => rfl
  | cons p l ih =>
    obtain ⟨k1, v1⟩ := p
    rw [derase_cons]
    by_cases hk : k1 = k
    · rw [if_pos hk]
      exact ih
    · rw [if_neg hk, dlookup_cons, if_neg hk]
      exact ih

/-- Erasure of a different key does not change a lookup. -/
theorem dlookup_derase_ne {κ α : Type} [DecidableEq κ]
    (l : List (κ × α)) (k k2 : κ) (h : k2 ≠ k) :
    dlookup (derase l k) k2 = dlookup l k2 := by
  induction l with
  | nil => rfl
  | cons p l ih =>
    obtain ⟨k1, v1⟩ := p
    rw [derase_cons]
    by_cases hk : k1 = k
    · rw [if_pos hk, ih, dlookup_cons]
      have h2 : ¬ k1 = k2 := by
        rw [hk]
        exact fun hh => h (Eq.symm hh)
      rw [if_neg h2]
    · rw [if_neg hk, dlookup_cons, dlookup_cons]
      by_cases hk2 : k1 = k2
      · rw [if_pos hk2, if_pos hk2]
      · rw [if_neg hk2, if_neg hk2, ih]

/-- The flattening fold never loses a key already present. -/
theorem flattenFold_pres {k : Val} :
    ∀ (d : List (Val × Val)) (start : Attrs), (dlookup start k).isSome →
      (dlookup (flattenFold start d) k).isSome := by
  intro d
  induction d with
  | nil => intro start h; exact h
  | cons kv d ih =>
    intro start h
    show (dlookup (flattenFold
      (if kv.2 = Val.vNone then start else dinsert start kv.1 (AVal.prim kv.2)) d) k).isSome
    by_cases hn : kv.2 = Val.vNone
    · rw [if_pos hn]
      exact ih start h
    · rw [if_neg hn]
      apply ih
      by_cases hk : kv.1 = k
      · subst hk
        rw [dlookup_dinsert_self]
        rfl
      · rw [dlookup_dinsert_ne _ _ _ _ (fun hh => hk hh.symm)]
        exact h

/-- A non-None entry of the wrapper dict survives the flattening fold. -/
theorem flattenFold_found {k v : Val} :
    ∀ (d : List (Val × Val)) (start : Attrs),
      dlookup d k = some v → v ≠ Val.vNone →
      (dlookup (flattenFold start d) k).isSome := by
  intro d
  induction d with
  | nil =>
    intro start h _
    simp [dlookup] at h
  | cons kv d ih =>
    intro start h hv
    obtain ⟨k1, v1⟩ := kv
    show (dlookup (flattenFold
      (if v1 = Val.vNone then start else dinsert start k1 (AVal.prim v1)) d) k).isSome
    by_cases hk : k1 = k
    · subst hk
      simp only [dlookup, if_pos rfl] at h
      injection h with h
      subst h
      rw [if_neg hv]
      apply flattenFold_pres
      rw [dlookup_dinsert_self]
      rfl
    · simp only [dlookup, if_neg hk] at h
      exact ih _ h hv

/-- The node flattening pass removes the attr_dict wrapper key whenever it
succeeds. -/
theorem flattenNodeEntry_no_wrapper {p q : Val × Attrs}
    (h : flattenNodeEntry p = Except.ok q) :
    dlookup q.2 (s "attr_dict") = none := by
  unfold flattenNodeEntry at h
  cases hl : dlookup p.2 (s "attr_dict") with
  | none =>
    rw [hl] at h
    exact Except.noConfusion h
  | some a =>
    cases a with
    | prim v =>
      rw [hl] at h
      exact Except.noConfusion h
    | adict d =>
      rw [hl] at h
      injection h with h
      subst h
      exact dlookup_derase_self _ _

/-- The edge flattening pass leaves no attr_dict wrapper key whenever it
succeeds. -/
theorem flattenEdgeEntry_no_wrapper {e e2 : Val × Val × Nat × Attrs}
    (h : flattenEdgeEntry e = Except.ok e2) :
    dlookup e2.2.2.2 (s "attr_dict") = none := by
  unfold flattenEdgeEntry at h
  cases hl : dlookup e.2.2.2 (s "attr_dict") with
  | none =>
    rw [hl] at h
    injection h with h
    subst h
    exact hl
  | some a =>
    cases a with
    | prim v =>
      rw [hl] at h
      exact Except.noConfusion h
    | adict d =>
      rw [hl] at h
      injection h with h
      subst h
      exact dlookup_derase_self _ _

/-- Every input element of a successful mapME has an image in the output on
which the function succeeded. -/
theorem mapME_forward {α β : Type} {f : α → Except PyErr β} :
    ∀ {l : List α} {ys : List β}, mapME f l = Except.ok ys →
      ∀ x ∈ l, ∃ y, y ∈ ys ∧ f x = Except.ok y := by
  intro l
  induction l with
  | nil =>
    intro ys _ x hx
    simp at hx
  | cons a l ih =>
    intro ys h x hx
    unfold mapME at h
    obtain ⟨b, hb, h2⟩ := exbind_ok h
    obtain ⟨bs, hbs, h3⟩ := exbind_ok h2
    injection h3 with h3
    subst h3
    rcases List.mem_cons.mp hx with rfl | hx
    · exact ⟨b, List.mem_cons_self b bs, hb⟩
    · obtain ⟨y, hy, hfy⟩ := ih hbs x hx
      exact ⟨y, List.mem_cons_of_mem b hy, hfy⟩

/-- A non-None wrapper attribute of a node reaches the direct attribute
namespace through the node flattening pass. -/
theorem flattenNodeEntry_flattens {p q : Val × Attrs} {d : List (Val × Val)}
    {k v : Val} (h : flattenNodeEntry p = Except.ok q)
    (hd : dlookup p.2 (s "attr_dict") = some (AVal.adict d))
    (hk : dlookup d k = some v) (hv : v ≠ Val.vNone) (hkne : k ≠ s "attr_dict") :
    ∃ attrs2, q = (p.1, attrs2) ∧ (dlookup attrs2 k).isSome := by
  unfold flattenNodeEntry at h
  rw [hd] at h
  injection h with h
  subst h
  refine ⟨_, rfl, ?_⟩
  rw [dlookup_derase_ne _ _ _ hkne]
  exact flattenFold_found d _ hk hv

/-- A non-None wrapper attribute of an edge reaches the direct attribute
namespace through the edge flattening pass. -/
theorem flattenEdgeEntry_flattens {e q : Val × Val × Nat × Attrs}
    {d : List (Val × Val)} {k v : Val} (h : flattenEdgeEntry e = Except.ok q)
    (hd : dlookup e.2.2.2 (s "attr_dict") = some (AVal.adict d))
    (hk : dlookup d k = some v) (hv : v ≠ Val.vNone) (hkne : k ≠ s "attr_dict") :
    ∃ attrs2, q = (e.1, e.2.1, e.2.2.1, attrs2) ∧ (dlookup attrs2 k).isSome := by
  unfold flattenEdgeEntry at h
  rw [hd] at h
  injection h with h
  subst h
  refine ⟨_, rfl, ?_⟩
  rw [dlookup_derase_ne _ _ _ hkne]
  exact flattenFold_found d _ hk hv

/-- C2 counterexample: on dfC2 the build returns a graph, the node Flu
stored the attribute id (with value None) under its attr_dict wrapper
before the flattening passes, yet the returned node carries no id in its
direct attribute namespace: not every attribute stored under the wrapper is
flattened into the direct namespace. -/
theorem c2_counterexample :
    retOk (generate_networkx_graph dfC2) = true ∧
    wrapNodeAttr (preFlattenGraph dfC2) (s "Flu") (s "id") = some Val.vNone ∧
    nodeAttr (generate_networkx_graph dfC2) (s "Flu") (s "id") = none :=
  ⟨rfl, rfl, rfl⟩

/-- C2 amended: on every input frame on which generate_networkx_graph
returns a graph, no node and no edge of the returned graph retains the
internal attr_dict wrapper key, and every attribute stored under the
wrapper WITH A NON-None VALUE is flattened into the direct attribute
namespace of the corresponding node or edge of the returned graph; a
None-valued wrapper attribute is dropped instead. -/
theorem c2_amended (df : List Row) (g g0 : Graph)
    (h : generate_networkx_graph df = Except.ok g)
    (h0 : preFlattenGraph df = Except.ok g0) :
    ((∀ p ∈ g.nodes, dlookup p.2 (s "attr_dict") = none) ∧
     (∀ e ∈ g.edges, dlookup e.2.2.2 (s "attr_dict") = none)) ∧
    (∀ p ∈ g0.nodes, ∀ d k v, dlookup p.2 (s "attr_dict") = some (AVal.adict d) →
      dlookup d k = some v → v ≠ Val.vNone → k ≠ s "attr_dict" →
      ∃ attrs2, (p.1, attrs2) ∈ g.nodes ∧ (dlookup attrs2 k).isSome) ∧
    (∀ e ∈ g0.edges, ∀ d k v, dlookup e.2.2.2 (s "attr_dict") = some (AVal.adict d) →
      dlookup d k = some v → v ≠ Val.vNone → k ≠ s "attr_dict" →
      ∃ attrs2, (e.1, e.2.1, e.2.2.1, attrs2) ∈ g.edges ∧ (dlookup attrs2 k).isSome) := by
  unfold generate_networkx_graph at h
  obtain ⟨p1, hp1, h⟩ := exbind_ok h
  obtain ⟨g2, hg2, h⟩ := exbind_ok h
  obtain ⟨nn, hnn, h⟩ := exbind_ok h
  obtain ⟨ne2, hne, h⟩ := exbind_ok h
  injection h with h
  subst h
  unfold preFlattenGraph at h0
  obtain ⟨p1x, hp1x, h0⟩ := exbind_ok h0
  rw [hp1] at hp1x
  injection hp1x with hp1x
  subst hp1x
  rw [hg2] at h0
  injection h0 with h0
  subst h0
  refine ⟨⟨?_, ?_⟩, ?_, ?_⟩
  · intro p hp
    obtain ⟨x, _, hfx⟩ := mapME_mem hnn p hp
    exact flattenNodeEntry_no_wrapper hfx
  · intro e he
    obtain ⟨x, _, hfx⟩ := mapME_mem hne e he
    exact flattenEdgeEntry_no_wrapper hfx
  · intro p hp d k v hd hk hv hkne
    obtain ⟨q, hqmem, hfq⟩ := mapME_forward hnn p hp
    obtain ⟨attrs2, rfl, hsome⟩ := flattenNodeEntry_flattens hfq hd hk hv hkne
    exact ⟨attrs2, hqmem, hsome⟩
  · intro e he d k v hd hk hv hkne
    obtain ⟨q, hqmem, hfq⟩ := mapME_forward hne e he
    obtain ⟨attrs2, rfl, hsome⟩ := flattenEdgeEntry_flattens hfq hd hk hv hkne
    exact ⟨attrs2, hqmem, hsome⟩

/-- Witness for the amended C2 at the concrete two-row frame: the first
returned node has no wrapper key, and the non-None wrapper attribute source
of the first pre-flattening node reaches the direct namespace. -/
theorem c2_amended_witness :
    dlookup pW2.2 (s "attr_dict") = none ∧
    (∃ attrs2, (pW2pre.1, attrs2) ∈ gW2.nodes ∧ (dlookup attrs2 (s "source")).isSome) :=
  ⟨(c2_amended dfC4 gW2 gW2pre rfl rfl).1.1 pW2 (by decide),
   (c2_amended dfC4 gW2 gW2pre rfl rfl).2.1 pW2pre (by decide) dW2 (s "source")
     (s "BridgeDB") rfl rfl (by decide) (by decide)⟩

/-- C3 (P1, P2): whenever the collapsing merge succeeds, its output is
exactly one row per base row (the image of the base table under the per-row
collapse, so nothing is dropped or duplicated), and a base row with zero
matching canonical records gets the single-record null-sentinel list in the
new column, never an absent cell and never an empty list. -/
theorem c3_collapse_one_row (data_df : List Row) (ns : String) (target_df : List Rec)
    (cc vc : List String) (cn : String) (out : List Row)
    (h : collapse_data_sources data_df ns target_df cc vc cn = Except.ok out) :
    out = data_df.map (collapse_row target_df cc vc cn) ∧
    out.length = data_df.length ∧
    (∀ row ∈ data_df, target_df.filter (matchesRow cc row) = [] →
      dlookup (collapse_row target_df cc vc cn row) cn
        = some (Cell.recs (nullSentinel vc))) := by
  unfold collapse_data_sources at h
  split at h
  case isTrue =>
    injection h with h
    subst h
    refine ⟨rfl, by simp, ?_⟩
    intro row _ hfilter
    unfold collapse_row
    rw [hfilter]
    exact dlookup_dinsert_self _ _ _
  case isFalse =>
    exact Except.noConfusion h

/-- Witness for C3: a base row with zero matches receives the null
sentinel. -/
theorem c3_collapse_one_row_witness :
    dlookup (collapse_row [] ["target"] ["f1"] "SRC" rowY) "SRC"
      = some (Cell.recs (nullSentinel ["f1"])) :=
  (c3_collapse_one_row [rowY] "ns" [] ["target"] ["f1"] "SRC"
      ([rowY].map (collapse_row [] ["target"] ["f1"] "SRC")) rfl).2.2 rowY
    (List.mem_singleton.mpr rfl) rfl

/-- A string scalar is never the Python None. -/
theorem s_ne_vNone (x : String) : s x ≠ Val.vNone :=
  fun hh => Val.noConfusion hh

/-- A failed Bool test gives the false equation. -/
theorem isna_false_of_not {v : Val} (h : ¬ pdIsna v = true) : pdIsna v = false := by
  cases hx : pdIsna v
  · rfl
  · exact absurd hx h

/-- A value that fails the isna test is not None. -/
theorem ne_vNone_of_isna_false {v : Val} (h : pdIsna v = false) : v ≠ Val.vNone := by
  intro hh
  subst hh
  simp [pdIsna] at h

/-- add_node never touches the edge list. -/
theorem addNode_edges (g : Graph) (label : Val) (d : List (Val × Val)) :
    (g.addNode label d).edges = g.edges := by
  unfold Graph.addNode
  split <;> rfl

/-- The bare node creation never touches the edge list. -/
theorem ensureNode_edges (g : Graph) (label : Val) :
    (g.ensureNode label).edges = g.edges := by
  unfold Graph.ensureNode
  split <;> rfl

/-- add_node preserves the edge invariant. -/
theorem EdgesOk_addNode {g : Graph} (h : EdgesOk g) (label : Val) (d : List (Val × Val)) :
    EdgesOk (g.addNode label d) := by
  intro e he
  rw [addNode_edges] at he
  exact h e he

/-- add_edge preserves the edge invariant when its dict carries non-None
source and label entries. -/
theorem EdgesOk_addEdge {g : Graph} (h : EdgesOk g) (u v : Val) (d : List (Val × Val))
    (hs : ∃ x, dlookup d (s "source") = some x ∧ x ≠ Val.vNone)
    (hl : ∃ w, dlookup d (s "label") = some w ∧ w ≠ Val.vNone) :
    EdgesOk (g.addEdge u v d) := by
  intro e he
  have hed : (g.addEdge u v d).edges
      = ((g.ensureNode u).ensureNode v).edges ++ [(u, v,
          ((((g.ensureNode u).ensureNode v).edges.filter
            (fun e => decide (e.1 = u ∧ e.2.1 = v))).length),
          [(s "attr_dict", AVal.adict d)])] := rfl
  rw [ensureNode_edges, ensureNode_edges] at hed
  rw [hed] at he
  rcases List.mem_append.mp he with he | he
  · exact h e he
  · have he2 := List.mem_singleton.mp he
    subst he2
    exact ⟨d, rfl, hs, hl⟩

/-- One DisGeNET record step preserves the edge invariant. -/
theorem EdgesOk_disgenet_step {lbl : Val} {g g2 : Graph} {dg : Rec}
    (hg : EdgesOk g) (h : disgenet_step lbl g dg = Except.ok g2) : EdgesOk g2 := by
  unfold disgenet_step at h
  obtain ⟨dn, _, h⟩ := exbind_ok h
  by_cases hna : pdIsna dn = true
  · rw [if_pos hna] at h
    injection h with h
    subst h
    exact hg
  · rw [if_neg hna] at h
    obtain ⟨did, _, h⟩ := exbind_ok h
    obtain ⟨dcl, _, h⟩ := exbind_ok h
    obtain ⟨dcln, _, h⟩ := exbind_ok h
    obtain ⟨dty, _, h⟩ := exbind_ok h
    obtain ⟨dst, _, h⟩ := exbind_ok h
    obtain ⟨sc, _, h⟩ := exbind_ok h
    obtain ⟨yi, _, h⟩ := exbind_ok h
    obtain ⟨yf, _, h⟩ := exbind_ok h
    obtain ⟨ei, _, h⟩ := exbind_ok h
    obtain ⟨el, _, h⟩ := exbind_ok h
    injection h with h
    subst h
    exact EdgesOk_addEdge (EdgesOk_addNode hg _ _) _ _ _
      ⟨s "DisGeNET", rfl, s_ne_vNone _⟩
      ⟨s "associated_with", rfl, s_ne_vNone _⟩

/-- One location record step preserves the edge invariant. -/
theorem EdgesOk_location_step {lbl : Val} {g g2 : Graph} {loc : Rec}
    (hg : EdgesOk g) (h : location_step lbl g loc = Except.ok g2) : EdgesOk g2 := by
  unfold location_step at h
  obtain ⟨lv, _, h⟩ := exbind_ok h
  by_cases hna : pdIsna lv = true
  · rw [if_pos hna] at h
    injection h with h
    subst h
    exact hg
  · rw [if_neg hna] at h
    obtain ⟨sl, _, h⟩ := exbind_ok h
    by_cases hna2 : pdIsna sl = true
    · rw [if_pos hna2] at h
      injection h with h
      subst h
      exact hg
    · rw [if_neg hna2] at h
      obtain ⟨li, _, h⟩ := exbind_ok h
      injection h with h
      subst h
      exact EdgesOk_addEdge (EdgesOk_addNode hg _ _) _ _ _
        ⟨s "OpenTargets", rfl, s_ne_vNone _⟩
        ⟨s "localized_in", rfl, s_ne_vNone _⟩

/-- One GO record step preserves the edge invariant. -/
theorem EdgesOk_go_step {lbl : Val} {g g2 : Graph} {go : Rec}
    (hg : EdgesOk g) (h : go_step lbl g go = Except.ok g2) : EdgesOk g2 := by
  unfold go_step at h
  obtain ⟨gn, _, h⟩ := exbind_ok h
  obtain ⟨gid, _, h⟩ := exbind_ok h
  injection h with h
  subst h
  exact EdgesOk_addEdge (EdgesOk_addNode hg _ _) _ _ _
    ⟨s "OpenTargets", rfl, s_ne_vNone _⟩
    ⟨s "part_of_go", rfl, s_ne_vNone _⟩

/-- One Reactome pathway record step preserves the edge invariant. -/
theorem EdgesOk_ot_pathway_step {lbl : Val} {g g2 : Graph} {pw : Rec}
    (hg : EdgesOk g) (h : ot_pathway_step lbl g pw = Except.ok g2) : EdgesOk g2 := by
  unfold ot_pathway_step at h
  obtain ⟨pid, _, h⟩ := exbind_ok h
  by_cases hna : pdIsna pid = true
  · rw [if_pos hna] at h
    injection h with h
    subst h
    exact hg
  · rw [if_neg hna] at h
    obtain ⟨pn, _, h⟩ := exbind_ok h
    injection h with h
    subst h
    exact EdgesOk_addEdge (EdgesOk_addNode hg _ _) _ _ _
      ⟨s "OpenTargets", rfl, s_ne_vNone _⟩
      ⟨s "part_of_pathway", rfl, s_ne_vNone _⟩

/-- One drug record step preserves the edge invariant; the edge label is the
relation value, non-None by the isna guard. -/
theorem EdgesOk_drug_step {lbl : Val} {g g2 : Graph} {dr : Rec}
    (hg : EdgesOk g) (h : drug_step lbl g dr = Except.ok g2) : EdgesOk g2 := by
  unfold drug_step at h
  obtain ⟨rel, _, h⟩ := exbind_ok h
  by_cases hna : pdIsna rel = true
  · rw [if_pos hna] at h
    injection h with h
    subst h
    exact hg
  · rw [if_neg hna] at h
    obtain ⟨dname, _, h⟩ := exbind_ok h
    obtain ⟨cid, _, h⟩ := exbind_ok h
    injection h with h
    subst h
    exact EdgesOk_addEdge (EdgesOk_addNode hg _ _) _ _ _
      ⟨s "OpenTargets", rfl, s_ne_vNone _⟩
      ⟨rel, rfl, ne_vNone_of_isna_false (isna_false_of_not hna)⟩

/-- One OpenTargets disease record step preserves the edge invariant. -/
theorem EdgesOk_ot_disease_step {lbl : Val} {g g2 : Graph} {dg : Rec}
    (hg : EdgesOk g) (h : ot_disease_step lbl g dg = Except.ok g2) : EdgesOk g2 := by
  unfold ot_disease_step at h
  obtain ⟨dn, _, h⟩ := exbind_ok h
  by_cases hna : pdIsna dn = true
  · rw [if_pos hna] at h
    injection h with h
    subst h
    exact hg
  · rw [if_neg hna] at h
    obtain ⟨did, _, h⟩ := exbind_ok h
    obtain ⟨ta, _, h⟩ := exbind_ok h
    injection h with h
    subst h
    exact EdgesOk_addEdge (EdgesOk_addNode hg _ _) _ _ _
      ⟨s "OpenTargets", rfl, s_ne_vNone _⟩
      ⟨s "associated_with", rfl, s_ne_vNone _⟩

/-- One WikiPathways record step preserves the edge invariant. -/
theorem EdgesOk_wikipathways_step {lbl : Val} {g g2 : Graph} {pw : Rec}
    (hg : EdgesOk g) (h : wikipathways_step lbl g pw = Except.ok g2) : EdgesOk g2 := by
  unfold wikipathways_step at h
  obtain ⟨pl, _, h⟩ := exbind_ok h
  by_cases hna : pdIsna pl = true
  · rw [if_pos hna] at h
    injection h with h
    subst h
    exact hg
  · rw [if_neg hna] at h
    obtain ⟨pid, _, h⟩ := exbind_ok h
    obtain ⟨pgc, _, h⟩ := exbind_ok h
    injection h with h
    subst h
    exact EdgesOk_addEdge (EdgesOk_addNode hg _ _) _ _ _
      ⟨s "WikiPathways", rfl, s_ne_vNone _⟩
      ⟨s "part_of_pathway", rfl, s_ne_vNone _⟩

/-- One interaction record step preserves the edge invariant. -/
theorem EdgesOk_ppi_step {lbl : Val} {g g2 : Graph} {ppi : Rec}
    (hg : EdgesOk g) (h : ppi_step lbl g ppi = Except.ok g2) : EdgesOk g2 := by
  unfold ppi_step at h
  obtain ⟨tgt, _, h⟩ := exbind_ok h
  injection h with h
  subst h
  exact EdgesOk_addEdge hg _ _ _
    ⟨s "STRING", rfl, s_ne_vNone _⟩
    ⟨s "interacts_with", rfl, s_ne_vNone _⟩

/-- The DisGeNET subgraph fold preserves the edge invariant. -/
theorem EdgesOk_add_disgenet {lbl : Val} {g g2 : Graph} {rs : List Rec}
    (hg : EdgesOk g) (h : add_disgenet_disease_subgraph g lbl rs = Except.ok g2) :
    EdgesOk g2 := by
  unfold add_disgenet_disease_subgraph at h
  exact foldE_inv (fun _ _ _ hb hf => EdgesOk_disgenet_step hb hf) hg h

/-- The location subgraph fold preserves the edge invariant. -/
theorem EdgesOk_add_location {lbl : Val} {g g2 : Graph} {rs : List Rec}
    (hg : EdgesOk g) (h : add_opentargets_location_subgraph g lbl rs = Except.ok g2) :
    EdgesOk g2 := by
  unfold add_opentargets_location_subgraph at h
  exact foldE_inv (fun _ _ _ hb hf => EdgesOk_location_step hb hf) hg h

/-- The GO subgraph fold preserves the edge invariant. -/
theorem EdgesOk_add_go {lbl : Val} {g g2 : Graph} {rs : List Rec}
    (hg : EdgesOk g) (h : add_opentargets_go_subgraph g lbl rs = Except.ok g2) :
    EdgesOk g2 := by
  unfold add_opentargets_go_subgraph at h
  exact foldE_inv (fun _ _ _ hb hf => EdgesOk_go_step hb hf) hg h

/-- The Reactome pathway subgraph fold preserves the edge invariant. -/
theorem EdgesOk_add_ot_pathway {lbl : Val} {g g2 : Graph} {rs : List Rec}
    (hg : EdgesOk g) (h : add_opentargets_pathway_subgraph g lbl rs = Except.ok g2) :
    EdgesOk g2 := by
  unfold add_opentargets_pathway_subgraph at h
  exact foldE_inv (fun _ _ _ hb hf => EdgesOk_ot_pathway_step hb hf) hg h

/-- The drug subgraph fold preserves the edge invariant. -/
theorem EdgesOk_add_drug {lbl : Val} {g g2 : Graph} {rs : List Rec}
    (hg : EdgesOk g) (h : add_opentargets_drug_subgraph g lbl rs = Except.ok g2) :
    EdgesOk g2 := by
  unfold add_opentargets_drug_subgraph at h
  exact foldE_inv (fun _ _ _ hb hf => EdgesOk_drug_step hb hf) hg h

/-- The OpenTargets disease subgraph fold preserves the edge invariant. -/
theorem EdgesOk_add_ot_disease {lbl : Val} {g g2 : Graph} {rs : List Rec}
    (hg : EdgesOk g) (h : add_opentargets_disease_subgraph g lbl rs = Except.ok g2) :
    EdgesOk g2 := by
  unfold add_opentargets_disease_subgraph at h
  exact foldE_inv (fun _ _ _ hb hf => EdgesOk_ot_disease_step hb hf) hg h

/-- The WikiPathways subgraph fold preserves the edge invariant. -/
theorem EdgesOk_add_wikipathways {lbl : Val} {g g2 : Graph} {rs : List Rec}
    (hg : EdgesOk g) (h : add_wikipathways_subgraph g lbl rs = Except.ok g2) :
    EdgesOk g2 := by
  unfold add_wikipathways_subgraph at h
  exact foldE_inv (fun _ _ _ hb hf => EdgesOk_wikipathways_step hb hf) hg h

/-- The interaction subgraph fold preserves the edge invariant. -/
theorem EdgesOk_add_ppi {lbl : Val} {g g2 : Graph} {rs : List Rec}
    (hg : EdgesOk g) (h : add_ppi_subgraph g lbl rs = Except.ok g2) :
    EdgesOk g2 := by
  unfold add_ppi_subgraph at h
  exact foldE_inv (fun _ _ _ hb hf => EdgesOk_ppi_step hb hf) hg h

/-- Phase 1 row processing preserves the edge invariant. -/
theorem EdgesOk_processRow {g : Graph} {row : Row} {q : Graph × Val}
    (hg : EdgesOk g) (h : processRow g row = Except.ok q) : EdgesOk q.1 := by
  unfold processRow at h
  obtain ⟨c0, _, h⟩ := exbind_ok h
  obtain ⟨gl, _, h⟩ := exbind_ok h
  obtain ⟨ct, _, h⟩ := exbind_ok h
  obtain ⟨tv, _, h⟩ := exbind_ok h
  obtain ⟨cts, _, h⟩ := exbind_ok h
  obtain ⟨ts, _, h⟩ := exbind_ok h
  obtain ⟨c1, _, h⟩ := exbind_ok h
  obtain ⟨l1, _, h⟩ := exbind_ok h
  obtain ⟨g1, hg1, h⟩ := exbind_ok h
  obtain ⟨c2, _, h⟩ := exbind_ok h
  obtain ⟨l2, _, h⟩ := exbind_ok h
  obtain ⟨g2x, hg2x, h⟩ := exbind_ok h
  obtain ⟨c3, _, h⟩ := exbind_ok h
  obtain ⟨l3, _, h⟩ := exbind_ok h
  obtain ⟨g3x, hg3x, h⟩ := exbind_ok h
  obtain ⟨c4, _, h⟩ := exbind_ok h
  obtain ⟨l4, _, h⟩ := exbind_ok h
  obtain ⟨g4x, hg4x, h⟩ := exbind_ok h
  obtain ⟨c5, _, h⟩ := exbind_ok h
  obtain ⟨l5, _, h⟩ := exbind_ok h
  obtain ⟨g5x, hg5x, h⟩ := exbind_ok h
  obtain ⟨c6, _, h⟩ := exbind_ok h
  obtain ⟨l6, _, h⟩ := exbind_ok h
  obtain ⟨g6x, hg6x, h⟩ := exbind_ok h
  obtain ⟨c7, _, h⟩ := exbind_ok h
  obtain ⟨l7, _, h⟩ := exbind_ok h
  obtain ⟨g7x, hg7x, h⟩ := exbind_ok h
  injection h with h
  subst h
  have e1 := EdgesOk_add_disgenet (EdgesOk_addNode hg _ _) hg1
  have e2 := EdgesOk_add_location e1 hg2x
  have e3 := EdgesOk_add_go e2 hg3x
  have e4 := EdgesOk_add_ot_pathway e3 hg4x
  have e5 := EdgesOk_add_drug e4 hg5x
  have e6 := EdgesOk_add_ot_disease e5 hg6x
  exact EdgesOk_add_wikipathways e6 hg7x

/-- Phase 1 establishes the edge invariant from the empty graph. -/
theorem EdgesOk_phase1 {df : List Row} {p : Graph × Option Val}
    (h : phase1 df = Except.ok p) : EdgesOk p.1 := by
  unfold phase1 at h
  refine foldE_inv (P := fun p : Graph × Option Val => EdgesOk p.1) ?_ ?_ h
  · intro b a b2 hb hf
    unfold phase1_step at hf
    obtain ⟨q, hq, hf⟩ := exbind_ok hf
    injection hf with hf
    subst hf
    exact EdgesOk_processRow hb hq
  · intro e he
    simp [emptyGraph] at he

/-- Phase 2 preserves the edge invariant. -/
theorem EdgesOk_phase2 {df : List Row} {last : Option Val} {g g2 : Graph}
    (hg : EdgesOk g) (h : phase2 df last g = Except.ok g2) : EdgesOk g2 := by
  unfold phase2 at h
  refine foldE_inv ?_ hg h
  intro b a b2 hb hf
  unfold phase2_step at hf
  obtain ⟨c, _, hf⟩ := exbind_ok hf
  obtain ⟨l, _, hf⟩ := exbind_ok hf
  cases last with
  | some lbl => exact EdgesOk_add_ppi hb hf
  | none => exact Except.noConfusion hf

/-- A wrapped edge keeps its source and label through the flattening. -/
theorem flattenEdgeEntry_good {e e2 : Val × Val × Nat × Attrs}
    (hw : GoodWrap e.2.2.2) (h : flattenEdgeEntry e = Except.ok e2) :
    (dlookup e2.2.2.2 (s "source")).isSome ∧ (dlookup e2.2.2.2 (s "label")).isSome := by
  obtain ⟨u, v, k, attrs⟩ := e
  obtain ⟨d, hattrs, ⟨x, hx, hxne⟩, ⟨w, hw2, hwne⟩⟩ := hw
  have hattrs2 : attrs = [(s "attr_dict", AVal.adict d)] := hattrs
  subst hattrs2
  have hcomp : flattenEdgeEntry (u, v, k, [(s "attr_dict", AVal.adict d)])
      = Except.ok (u, v, k,
          derase (flattenFold [(s "attr_dict", AVal.adict d)] d) (s "attr_dict")) := by
    unfold flattenEdgeEntry
    rw [dlookup_cons, if_pos rfl]
  rw [hcomp] at h
  injection h with h
  subst h
  constructor
  · rw [dlookup_derase_ne _ _ _ (by decide)]
    exact flattenFold_found d _ hx hxne
  · rw [dlookup_derase_ne _ _ _ (by decide)]
    exact flattenFold_found d _ hw2 hwne

/-- C5 amended: every edge of a graph returned by generate_networkx_graph
carries at least the source and label attributes. -/
theorem c5_amended (df : List Row) (g : Graph)
    (h : generate_networkx_graph df = Except.ok g) :
    ∀ e ∈ g.edges, (dlookup e.2.2.2 (s "source")).isSome ∧
      (dlookup e.2.2.2 (s "label")).isSome := by
  unfold generate_networkx_graph at h
  obtain ⟨p1, hp1, h⟩ := exbind_ok h
  obtain ⟨g2, hg2, h⟩ := exbind_ok h
  obtain ⟨nn, hnn, h⟩ := exbind_ok h
  obtain ⟨ne2, hne, h⟩ := exbind_ok h
  injection h with h
  subst h
  intro e he
  obtain ⟨x, hx, hfx⟩ := mapME_mem hne e he
  have hok2 : EdgesOk g2 := EdgesOk_phase2 (EdgesOk_phase1 hp1) hg2
  exact flattenEdgeEntry_good (hok2 x hx) hfx

/-- Witness for the amended C5 at the concrete edge of a single-row frame
with one interaction record. -/
theorem c5_amended_witness :
    (dlookup eW5.2.2.2 (s "source")).isSome ∧
      (dlookup eW5.2.2.2 (s "label")).isSome :=
  c5_amended dfW5 gW5 rfl eW5 (by decide)

/-- A present record field makes rget succeed. -/
theorem rget_eq_ok {r : Rec} {f : String} {v : Val} (h : dlookup r f = some v) :
    rget r f = Except.ok v := by
  unfold rget
  rw [h]

/-- A present column makes getCell succeed. -/
theorem getCell_eq_ok {row : Row} {col : String} {c : Cell} (h : dlookup row col = some c) :
    getCell row col = Except.ok c := by
  unfold getCell
  rw [h]

/-- A missing column makes getCell raise its KeyError. -/
theorem getCell_eq_err {row : Row} {col : String} (h : dlookup row col = none) :
    getCell row col = Except.error (PyErr.keyError col) := by
  unfold getCell
  rw [h]

/-- A present well-typed scalar cell. -/
theorem cellPrimOk_some {c : Cell} (h : cellPrimOk (some c) = true) :
    ∃ v, c = Cell.prim v := by
  cases c with
  | prim v => exact ⟨v, rfl⟩
  | recs rs => simp [cellPrimOk] at h

/-- A present well-typed source cell carries its required fields. -/
theorem cellRecsOk_some {fs : List String} {c : Cell} (h : cellRecsOk fs (some c) = true) :
    ∃ rs, c = Cell.recs rs ∧ ∀ r ∈ rs, ∀ f ∈ fs, (dlookup r f).isSome := by
  cases c with
  | prim v => simp [cellRecsOk] at h
  | recs rs =>
    refine ⟨rs, rfl, ?_⟩
    simp only [cellRecsOk, List.all_eq_true] at h
    intro r hr f hf
    exact h r hr f hf

/-- The DisGeNET step succeeds on a record carrying its fields. -/
theorem disgenet_step_ok {lbl : Val} {g : Graph} {dg : Rec}
    (h : ∀ f ∈ ["disease_name", "diseaseid", "disease_class", "disease_class_name",
      "disease_type", "disease_semantic_type", "score", "year_initial", "year_final",
      "ei", "el"], (dlookup dg f).isSome) :
    ∃ g2, disgenet_step lbl g dg = Except.ok g2 := by
  obtain ⟨dn, hdn⟩ := Option.isSome_iff_exists.mp (h "disease_name" (by decide))
  obtain ⟨did, hdid⟩ := Option.isSome_iff_exists.mp (h "diseaseid" (by decide))
  obtain ⟨dcl, hdcl⟩ := Option.isSome_iff_exists.mp (h "disease_class" (by decide))
  obtain ⟨dcln, hdcln⟩ := Option.isSome_iff_exists.mp (h "disease_class_name" (by decide))
  obtain ⟨dty, hdty⟩ := Option.isSome_iff_exists.mp (h "disease_type" (by decide))
  obtain ⟨dst, hdst⟩ := Option.isSome_iff_exists.mp (h "disease_semantic_type" (by decide))
  obtain ⟨sc, hsc⟩ := Option.isSome_iff_exists.mp (h "score" (by decide))
  obtain ⟨yi, hyi⟩ := Option.isSome_iff_exists.mp (h "year_initial" (by decide))
  obtain ⟨yf, hyf⟩ := Option.isSome_iff_exists.mp (h "year_final" (by decide))
  obtain ⟨ei, hei⟩ := Option.isSome_iff_exists.mp (h "ei" (by decide))
  obtain ⟨el, hel⟩ := Option.isSome_iff_exists.mp (h "el" (by decide))
  unfold disgenet_step
  simp only [rget_eq_ok hdn, ok_bind]
  by_cases hna : pdIsna dn = true
  · rw [if_pos hna]
    exact ⟨g, rfl⟩
  · rw [if_neg hna]
    simp only [rget_eq_ok hdid, rget_eq_ok hdcl, rget_eq_ok hdcln, rget_eq_ok hdty,
      rget_eq_ok hdst, rget_eq_ok hsc, rget_eq_ok hyi, rget_eq_ok hyf,
      rget_eq_ok hei, rget_eq_ok hel, ok_bind]
    exact ⟨_, rfl⟩

/-- The location step succeeds on a record carrying its fields. -/
theorem location_step_ok {lbl : Val} {g : Graph} {loc : Rec}
    (h : ∀ f ∈ ["location", "subcellular_loc", "loc_identifier"], (dlookup loc f).isSome) :
    ∃ g2, location_step lbl g loc = Except.ok g2 := by
  obtain ⟨lv, hlv⟩ := Option.isSome_iff_exists.mp (h "location" (by decide))
  obtain ⟨sl, hsl⟩ := Option.isSome_iff_exists.mp (h "subcellular_loc" (by decide))
  obtain ⟨li, hli⟩ := Option.isSome_iff_exists.mp (h "loc_identifier" (by decide))
  unfold location_step
  simp only [rget_eq_ok hlv, ok_bind]
  by_cases hna : pdIsna lv = true
  · rw [if_pos hna]
    exact ⟨g, rfl⟩
  · rw [if_neg hna]
    simp only [rget_eq_ok hsl, ok_bind]
    by_cases hna2 : pdIsna sl = true
    · rw [if_pos hna2]
      exact ⟨g, rfl⟩
    · rw [if_neg hna2]
      simp only [rget_eq_ok hli, ok_bind]
      exact ⟨_, rfl⟩

/-- The GO step succeeds on a record carrying its fields. -/
theorem go_step_ok {lbl : Val} {g : Graph} {go : Rec}
    (h : ∀ f ∈ ["go_name", "go_id"], (dlookup go f).isSome) :
    ∃ g2, go_step lbl g go = Except.ok g2 := by
  obtain ⟨gn, hgn⟩ := Option.isSome_iff_exists.mp (h "go_name" (by decide))
  obtain ⟨gid, hgid⟩ := Option.isSome_iff_exists.mp (h "go_id" (by decide))
  unfold go_step
  simp only [rget_eq_ok hgn, rget_eq_ok hgid, ok_bind]
  exact ⟨_, rfl⟩

/-- The Reactome pathway step succeeds on a record carrying its fields. -/
theorem ot_pathway_step_ok {lbl : Val} {g : Graph} {pw : Rec}
    (h : ∀ f ∈ ["pathway_id", "pathway_name"], (dlookup pw f).isSome) :
    ∃ g2, ot_pathway_step lbl g pw = Except.ok g2 := by
  obtain ⟨pid, hpid⟩ := Option.isSome_iff_exists.mp (h "pathway_id" (by decide))
  obtain ⟨pn, hpn⟩ := Option.isSome_iff_exists.mp (h "pathway_name" (by decide))
  unfold ot_pathway_step
  simp only [rget_eq_ok hpid, ok_bind]
  by_cases hna : pdIsna pid = true
  · rw [if_pos hna]
    exact ⟨g, rfl⟩
  · rw [if_neg hna]
    simp only [rget_eq_ok hpn, ok_bind]
    exact ⟨_, rfl⟩

/-- The drug step succeeds on a record carrying its fields. -/
theorem drug_step_ok {lbl : Val} {g : Graph} {dr : Rec}
    (h : ∀ f ∈ ["relation", "drug_name", "chembl_id"], (dlookup dr f).isSome) :
    ∃ g2, drug_step lbl g dr = Except.ok g2 := by
  obtain ⟨rel, hrel⟩ := Option.isSome_iff_exists.mp (h "relation" (by decide))
  obtain ⟨dname, hdname⟩ := Option.isSome_iff_exists.mp (h "drug_name" (by decide))
  obtain ⟨cid, hcid⟩ := Option.isSome_iff_exists.mp (h "chembl_id" (by decide))
  unfold drug_step
  simp only [rget_eq_ok hrel, ok_bind]
  by_cases hna : pdIsna rel = true
  · rw [if_pos hna]
    exact ⟨g, rfl⟩
  · rw [if_neg hna]
    simp only [rget_eq_ok hdname, rget_eq_ok hcid, ok_bind]
    exact ⟨_, rfl⟩

/-- The OpenTargets disease step succeeds on a record carrying its fields. -/
theorem ot_disease_step_ok {lbl : Val} {g : Graph} {dg : Rec}
    (h : ∀ f ∈ ["disease_name", "disease_id", "therapeutic_areas"], (dlookup dg f).isSome) :
    ∃ g2, ot_disease_step lbl g dg = Except.ok g2 := by
  obtain ⟨dn, hdn⟩ := Option.isSome_iff_exists.mp (h "disease_name" (by decide))
  obtain ⟨did, hdid⟩ := Option.isSome_iff_exists.mp (h "disease_id" (by decide))
  obtain ⟨ta, hta⟩ := Option.isSome_iff_exists.mp (h "therapeutic_areas" (by decide))
  unfold ot_disease_step
  simp only [rget_eq_ok hdn, ok_bind]
  by_cases hna : pdIsna dn = true
  · rw [if_pos hna]
    exact ⟨g, rfl⟩
  · rw [if_neg hna]
    simp only [rget_eq_ok hdid, rget_eq_ok hta, ok_bind]
    exact ⟨_, rfl⟩

/-- The WikiPathways step succeeds on a record carrying its fields. -/
theorem wikipathways_step_ok {lbl : Val} {g : Graph} {pw : Rec}
    (h : ∀ f ∈ ["pathwayLabel", "pathwayId", "pathwayGeneCount"], (dlookup pw f).isSome) :
    ∃ g2, wikipathways_step lbl g pw = Except.ok g2 := by
  obtain ⟨pl, hpl⟩ := Option.isSome_iff_exists.mp (h "pathwayLabel" (by decide))
  obtain ⟨pid, hpid⟩ := Option.isSome_iff_exists.mp (h "pathwayId" (by decide))
  obtain ⟨pgc, hpgc⟩ := Option.isSome_iff_exists.mp (h "pathwayGeneCount" (by decide))
  unfold wikipathways_step
  simp only [rget_eq_ok hpl, ok_bind]
  by_cases hna : pdIsna pl = true
  · rw [if_pos hna]
    exact ⟨g, rfl⟩
  · rw [if_neg hna]
    simp only [rget_eq_ok hpid, rget_eq_ok hpgc, ok_bind]
    exact ⟨_, rfl⟩

/-- The DisGeNET subgraph succeeds on records carrying their fields. -/
theorem add_disgenet_ok (g : Graph) (lbl : Val) {rs : List Rec}
    (h : ∀ r ∈ rs, ∀ f ∈ ["disease_name", "diseaseid", "disease_class",
      "disease_class_name", "disease_type", "disease_semantic_type", "score",
      "year_initial", "year_final", "ei", "el"], (dlookup r f).isSome) :
    ∃ g2, add_disgenet_disease_subgraph g lbl rs = Except.ok g2 := by
  unfold add_disgenet_disease_subgraph
  exact @foldE_ok Rec Graph
    (fun r => ∀ f ∈ ["disease_name", "diseaseid", "disease_class",
      "disease_class_name", "disease_type", "disease_semantic_type", "score",
      "year_initial", "year_final", "ei", "el"], (dlookup r f).isSome)
    _ (fun _ _ ha => disgenet_step_ok ha) rs g h

/-- The location subgraph succeeds on records carrying their fields. -/
theorem add_location_ok (g : Graph) (lbl : Val) {rs : List Rec}
    (h : ∀ r ∈ rs, ∀ f ∈ ["location", "subcellular_loc", "loc_identifier"],
      (dlookup r f).isSome) :
    ∃ g2, add_opentargets_location_subgraph g lbl rs = Except.ok g2 := by
  unfold add_opentargets_location_subgraph
  exact @foldE_ok Rec Graph
    (fun r => ∀ f ∈ ["location", "subcellular_loc", "loc_identifier"],
      (dlookup r f).isSome)
    _ (fun _ _ ha => location_step_ok ha) rs g h

/-- The GO subgraph succeeds on records carrying their fields. -/
theorem add_go_ok (g : Graph) (lbl : Val) {rs : List Rec}
    (h : ∀ r ∈ rs, ∀ f ∈ ["go_name", "go_id"], (dlookup r f).isSome) :
    ∃ g2, add_opentargets_go_subgraph g lbl rs = Except.ok g2 := by
  unfold add_opentargets_go_subgraph
  exact @foldE_ok Rec Graph
    (fun r => ∀ f ∈ ["go_name", "go_id"], (dlookup r f).isSome)
    _ (fun _ _ ha => go_step_ok ha) rs g h

/-- The Reactome subgraph succeeds on records carrying their fields. -/
theorem add_ot_pathway_ok (g : Graph) (lbl : Val) {rs : List Rec}
    (h : ∀ r ∈ rs, ∀ f ∈ ["pathway_id", "pathway_name"], (dlookup r f).isSome) :
    ∃ g2, add_opentargets_pathway_subgraph g lbl rs = Except.ok g2 := by
  unfold add_opentargets_pathway_subgraph
  exact @foldE_ok Rec Graph
    (fun r => ∀ f ∈ ["pathway_id", "pathway_name"], (dlookup r f).isSome)
    _ (fun _ _ ha => ot_pathway_step_ok ha) rs g h

/-- The drug subgraph succeeds on records carrying their fields. -/
theorem add_drug_ok (g : Graph) (lbl : Val) {rs : List Rec}
    (h : ∀ r ∈ rs, ∀ f ∈ ["relation", "drug_name", "chembl_id"], (dlookup r f).isSome) :
    ∃ g2, add_opentargets_drug_subgraph g lbl rs = Except.ok g2 := by
  unfold add_opentargets_drug_subgraph
  exact @foldE_ok Rec Graph
    (fun r => ∀ f ∈ ["relation", "drug_name", "chembl_id"], (dlookup r f).isSome)
    _ (fun _ _ ha => drug_step_ok ha) rs g h

/-- The OpenTargets disease subgraph succeeds on records carrying their
fields. -/
theorem add_ot_disease_ok (g : Graph) (lbl : Val) {rs : List Rec}
    (h : ∀ r ∈ rs, ∀ f ∈ ["disease_name", "disease_id", "therapeutic_areas"],
      (dlookup r f).isSome) :
    ∃ g2, add_opentargets_disease_subgraph g lbl rs = Except.ok g2 := by
  unfold add_opentargets_disease_subgraph
  exact @foldE_ok Rec Graph
    (fun r => ∀ f ∈ ["disease_name", "disease_id", "therapeutic_areas"],
      (dlookup r f).isSome)
    _ (fun _ _ ha => ot_disease_step_ok ha) rs g h

/-- The WikiPathways subgraph succeeds on records carrying their fields. -/
theorem add_wikipathways_ok (g : Graph) (lbl : Val) {rs : List Rec}
    (h : ∀ r ∈ rs, ∀ f ∈ ["pathwayLabel", "pathwayId", "pathwayGeneCount"],
      (dlookup r f).isSome) :
    ∃ g2, add_wikipathways_subgraph g lbl rs = Except.ok g2 := by
  unfold add_wikipathways_subgraph
  exact @foldE_ok Rec Graph
    (fun r => ∀ f ∈ ["pathwayLabel", "pathwayId", "pathwayGeneCount"],
      (dlookup r f).isSome)
    _ (fun _ _ ha => wikipathways_step_ok ha) rs g h

/-- Case analysis of one phase-1 row: on a well-shaped row the processing
either raises the KeyError of a missing phase-1 column or succeeds, in which
case all ten phase-1 columns were present in the row. -/
theorem processRow_cases (g : Graph) (row : Row) (hok : rowOk row = true) :
    (∃ k, k ∈ PHASE1_COLS ∧ processRow g row = Except.error (PyErr.keyError k)) ∨
    (∃ q, processRow g row = Except.ok q ∧
      ∀ c ∈ PHASE1_COLS, (dlookup row c).isSome) := by
  simp only [rowOk, Bool.and_eq_true, List.all_eq_true] at hok
  obtain ⟨⟨hprim, hsrcH⟩, _⟩ := hok
  cases h1 : dlookup row "identifier" with
  | none =>
    left
    exact ⟨"identifier", by decide, by
      simp only [processRow, getCell_eq_err h1, error_bind]⟩
  | some c1 =>
  have hp1 := hprim "identifier" (by decide)
  rw [h1] at hp1
  obtain ⟨v1, rfl⟩ := cellPrimOk_some hp1
  cases h2 : dlookup row "target" with
  | none =>
    left
    exact ⟨"target", by decide, by
      simp only [processRow, getCell_eq_ok h1, asPrim, ok_bind,
        getCell_eq_err h2, error_bind]⟩
  | some c2 =>
  have hp2 := hprim "target" (by decide)
  rw [h2] at hp2
  obtain ⟨v2, rfl⟩ := cellPrimOk_some hp2
  cases h3 : dlookup row "target.source" with
  | none =>
    left
    exact ⟨"target.source", by decide, by
      simp only [processRow, getCell_eq_ok h1, getCell_eq_ok h2, asPrim, ok_bind,
        getCell_eq_err h3, error_bind]⟩
  | some c3 =>
  have hp3 := hprim "target.source" (by decide)
  rw [h3] at hp3
  obtain ⟨v3, rfl⟩ := cellPrimOk_some hp3
  cases h4 : dlookup row "DisGeNET" with
  | none =>
    left
    exact ⟨"DisGeNET", by decide, by
      simp only [processRow, getCell_eq_ok h1, getCell_eq_ok h2, getCell_eq_ok h3,
        asPrim, ok_bind, getCell_eq_err h4, error_bind]⟩
  | some c4 =>
  have hs4 : cellRecsOk ["disease_name", "diseaseid", "disease_class",
      "disease_class_name", "disease_type", "disease_semantic_type", "score",
      "year_initial", "year_final", "ei", "el"] (dlookup row "DisGeNET") = true :=
    hsrcH ("DisGeNET", ["disease_name", "diseaseid", "disease_class",
      "disease_class_name", "disease_type", "disease_semantic_type", "score",
      "year_initial", "year_final", "ei", "el"]) (by decide)
  rw [h4] at hs4
  obtain ⟨rs4, rfl, hf4⟩ := cellRecsOk_some hs4
  obtain ⟨w4, hg4⟩ := add_disgenet_ok (Graph.addNode g v1 (geneNodeAttrs v1 v2 v3)) v1 hf4
  cases h5 : dlookup row "OpenTargets_Location" with
  | none =>
    left
    exact ⟨"OpenTargets_Location", by decide, by
      simp only [processRow, getCell_eq_ok h1, getCell_eq_ok h2, getCell_eq_ok h3,
        getCell_eq_ok h4, asPrim, asRecs, ok_bind, hg4,
        getCell_eq_err h5, error_bind]⟩
  | some c5 =>
  have hs5 : cellRecsOk ["location", "subcellular_loc", "loc_identifier"]
      (dlookup row "OpenTargets_Location") = true :=
    hsrcH ("OpenTargets_Location", ["location", "subcellular_loc", "loc_identifier"])
      (by decide)
  rw [h5] at hs5
  obtain ⟨rs5, rfl, hf5⟩ := cellRecsOk_some hs5
  obtain ⟨w5, hg5⟩ := add_location_ok w4 v1 hf5
  cases h6 : dlookup row "GO_Process" with
  | none =>
    left
    exact ⟨"GO_Process", by decide, by
      simp only [processRow, getCell_eq_ok h1, getCell_eq_ok h2, getCell_eq_ok h3,
        getCell_eq_ok h4, getCell_eq_ok h5, asPrim, asRecs, ok_bind, hg4, hg5,
        getCell_eq_err h6, error_bind]⟩
  | some c6 =>
  have hs6 : cellRecsOk ["go_name", "go_id"] (dlookup row "GO_Process") = true :=
    hsrcH ("GO_Process", ["go_name", "go_id"]) (by decide)
  rw [h6] at hs6
  obtain ⟨rs6, rfl, hf6⟩ := cellRecsOk_some hs6
  obtain ⟨w6, hg6⟩ := add_go_ok w5 v1 hf6
  cases h7 : dlookup row "Reactome_Pathways" with
  | none =>
    left
    exact ⟨"Reactome_Pathways", by decide, by
      simp only [processRow, getCell_eq_ok h1, getCell_eq_ok h2, getCell_eq_ok h3,
        getCell_eq_ok h4, getCell_eq_ok h5, getCell_eq_ok h6, asPrim, asRecs,
        ok_bind, hg4, hg5, hg6, getCell_eq_err h7, error_bind]⟩
  | some c7 =>
  have hs7 : cellRecsOk ["pathway_id", "pathway_name"]
      (dlookup row "Reactome_Pathways") = true :=
    hsrcH ("Reactome_Pathways", ["pathway_id", "pathway_name"]) (by decide)
  rw [h7] at hs7
  obtain ⟨rs7, rfl, hf7⟩ := cellRecsOk_some hs7
  obtain ⟨w7, hg7⟩ := add_ot_pathway_ok w6 v1 hf7
  cases h8 : dlookup row "ChEMBL_Drugs" with
  | none =>
    left
    exact ⟨"ChEMBL_Drugs", by decide, by
      simp only [processRow, getCell_eq_ok h1, getCell_eq_ok h2, getCell_eq_ok h3,
        getCell_eq_ok h4, getCell_eq_ok h5, getCell_eq_ok h6, getCell_eq_ok h7,
        asPrim, asRecs, ok_bind, hg4, hg5, hg6, hg7,
        getCell_eq_err h8, error_bind]⟩
  | some c8 =>
  have hs8 : cellRecsOk ["relation", "drug_name", "chembl_id"]
      (dlookup row "ChEMBL_Drugs") = true :=
    hsrcH ("ChEMBL_Drugs", ["relation", "drug_name", "chembl_id"]) (by decide)
  rw [h8] at hs8
  obtain ⟨rs8, rfl, hf8⟩ := cellRecsOk_some hs8
  obtain ⟨w8, hg8⟩ := add_drug_ok w7 v1 hf8
  cases h9 : dlookup row "OpenTargets_Diseases" with
  | none =>
    left
    exact ⟨"OpenTargets_Diseases", by decide, by
      simp only [processRow, getCell_eq_ok h1, getCell_eq_ok h2, getCell_eq_ok h3,
        getCell_eq_ok h4, getCell_eq_ok h5, getCell_eq_ok h6, getCell_eq_ok h7,
        getCell_eq_ok h8, asPrim, asRecs, ok_bind, hg4, hg5, hg6, hg7, hg8,
        getCell_eq_err h9, error_bind]⟩
  | some c9 =>
  have hs9 : cellRecsOk ["disease_name", "disease_id", "therapeutic_areas"]
      (dlookup row "OpenTargets_Diseases") = true :=
    hsrcH ("OpenTargets_Diseases", ["disease_name", "disease_id", "therapeutic_areas"])
      (by decide)
  rw [h9] at hs9
  obtain ⟨rs9, rfl, hf9⟩ := cellRecsOk_some hs9
  obtain ⟨w9, hg9⟩ := add_ot_disease_ok w8 v1 hf9
  cases h10 : dlookup row "WikiPathways" with
  | none =>
    left
    exact ⟨"WikiPathways", by decide, by
      simp only [processRow, getCell_eq_ok h1, getCell_eq_ok h2, getCell_eq_ok h3,
        getCell_eq_ok h4, getCell_eq_ok h5, getCell_eq_ok h6, getCell_eq_ok h7,
        getCell_eq_ok h8, getCell_eq_ok h9, asPrim, asRecs, ok_bind,
        hg4, hg5, hg6, hg7, hg8, hg9, getCell_eq_err h10, error_bind]⟩
  | some c10 =>
  have hs10 : cellRecsOk ["pathwayLabel", "pathwayId", "pathwayGeneCount"]
      (dlookup row "WikiPathways") = true :=
    hsrcH ("WikiPathways", ["pathwayLabel", "pathwayId", "pathwayGeneCount"])
      (by decide)
  rw [h10] at hs10
  obtain ⟨rs10, rfl, hf10⟩ := cellRecsOk_some hs10
  obtain ⟨w10, hg10⟩ := add_wikipathways_ok w9 v1 hf10
  right
  refine ⟨(w10, v1), ?_, ?_⟩
  · simp only [processRow, getCell_eq_ok h1, getCell_eq_ok h2, getCell_eq_ok h3,
      getCell_eq_ok h4, getCell_eq_ok h5, getCell_eq_ok h6, getCell_eq_ok h7,
      getCell_eq_ok h8, getCell_eq_ok h9, getCell_eq_ok h10, asPrim, asRecs,
      ok_bind, hg4, hg5, hg6, hg7, hg8, hg9, hg10]
  · intro c hc
    simp only [PHASE1_COLS, List.mem_cons, List.not_mem_nil, or_false] at hc
    rcases hc with rfl | rfl | rfl | rfl | rfl | rfl | rfl | rfl | rfl | rfl <;>
      simp [h1, h2, h3, h4, h5, h6, h7, h8, h9, h10]

/-- Folding phase 1 over well-shaped rows either raises the KeyError of a
phase-1 column or succeeds with every phase-1 column present in every row. -/
theorem phase1_fold_cases : ∀ (df : List Row) (p0 : Graph × Option Val),
    (∀ row ∈ df, rowOk row = true) →
    (∃ k, k ∈ PHASE1_COLS ∧
      foldE phase1_step p0 df = Except.error (PyErr.keyError k)) ∨
    (∃ p, foldE phase1_step p0 df = Except.ok p ∧
      ∀ row ∈ df, ∀ c ∈ PHASE1_COLS, (dlookup row c).isSome) := by
  intro df
  induction df with
  | nil =>
    intro p0 _
    right
    exact ⟨p0, rfl, by simp⟩
  | cons r df ih =>
    intro p0 hok
    rcases processRow_cases p0.1 r (hok r (List.mem_cons_self _ _)) with
      ⟨k, hk, herr⟩ | ⟨q, hq, hpres⟩
    · left
      refine ⟨k, hk, ?_⟩
      have hstep : phase1_step p0 r = Except.error (PyErr.keyError k) := by
        unfold phase1_step
        rw [herr, error_bind]
      unfold foldE
      rw [hstep, error_bind]
    · have hstep : phase1_step p0 r = Except.ok (q.1, some q.2) := by
        unfold phase1_step
        rw [hq, ok_bind]
      rcases ih (q.1, some q.2) (fun x hx => hok x (List.mem_cons_of_mem _ hx)) with
        ⟨k, hk, herr2⟩ | ⟨p, hp, hpres2⟩
      · left
        refine ⟨k, hk, ?_⟩
        unfold foldE
        rw [hstep, ok_bind]
        exact herr2
      · right
        refine ⟨p, ?_, ?_⟩
        · unfold foldE
          rw [hstep, ok_bind]
          exact hp
        · intro row hrow
          rcases List.mem_cons.mp hrow with rfl | hrow
          · exact hpres
          · exact hpres2 row hrow

/-- C10: a nonempty well-shaped frame lacking any of the eleven required
columns makes generate_networkx_graph raise a KeyError naming a required
column, instead of returning a graph. -/
theorem c10_missing_column_keyerror (df : List Row) (c : String)
    (h0 : df ≠ []) (hc : c ∈ REQUIRED_COLS)
    (hok : ∀ row ∈ df, rowOk row = true)
    (hmiss : ∀ row ∈ df, dlookup row c = none) :
    ∃ k, k ∈ REQUIRED_COLS ∧
      generate_networkx_graph df = Except.error (PyErr.keyError k) := by
  rcases phase1_fold_cases df (emptyGraph, none) hok with
    ⟨k, hk, herr⟩ | ⟨p, hp, hpres⟩
  · refine ⟨k, ?_, ?_⟩
    · unfold REQUIRED_COLS
      exact List.mem_append_left _ hk
    · unfold generate_networkx_graph phase1
      rw [herr, error_bind]
  · obtain ⟨r0, rest, rfl⟩ : ∃ r0 rest, df = r0 :: rest := by
      cases df with
      | nil => exact absurd rfl h0
      | cons a l => exact ⟨a, l, rfl⟩
    have hcs : c = "stringdb" := by
      unfold REQUIRED_COLS at hc
      rcases List.mem_append.mp hc with hc | hc
      · exfalso
        have hsome := hpres r0 (List.mem_cons_self _ _) c hc
        rw [hmiss r0 (List.mem_cons_self _ _)] at hsome
        simp at hsome
      · simpa using hc
    subst hcs
    refine ⟨"stringdb", ?_, ?_⟩
    · unfold REQUIRED_COLS
      exact List.mem_append_right _ (by decide)
    · have hph2 : phase2 (r0 :: rest) p.2 p.1 = Except.error (PyErr.keyError "stringdb") := by
        have hstep : phase2_step p.2 p.1 r0 = Except.error (PyErr.keyError "stringdb") := by
          unfold phase2_step
          rw [getCell_eq_err (hmiss r0 (List.mem_cons_self _ _)), error_bind]
        unfold phase2 foldE
        rw [hstep, error_bind]
      unfold generate_networkx_graph phase1
      rw [hp]
      simp only [ok_bind]
      rw [hph2, error_bind]

/-- Witness for C10 at a concrete one-row frame lacking the stringdb
column. -/
theorem c10_missing_column_keyerror_witness :
    ∃ k, k ∈ REQUIRED_COLS ∧
      generate_networkx_graph [rowW10] = Except.error (PyErr.keyError k) :=
  c10_missing_column_keyerror [rowW10] "stringdb" (by simp) (by decide)
    (by decide) (by decide)

end PyBDF
